import Mathlib

/-!
Verification development for the AI-Personal-Assistant request engine.

The repository contains three variants of the engine:
* `src/agent_manager.py`   (suffix `_am` below),
* `src/main_code.py`       (suffix `_mc` below),
* `src/agent_managerr.py`  (suffix `_rr` below).

Each Python function that the claims touch is embedded as an executable Lean
function over `List Char` / `String`.  External collaborators (the Groq LLM,
the Google calendar and Gmail services, the credential provider) are passed in
as explicit values: an LLM completion is an `Except String String` (`.error`
models a raised transport/auth exception), credential availability is a
`Bool`, and so on.  Python exceptions are modelled by `Except`/`Option`
results; every `try/except` site in the source is mirrored by an explicit
match on such a value.
-/

/-! ## Python string primitives -/

/-- ASCII lower-casing of one character, as `str.lower()` acts on the ASCII
queries handled by the engine. -/
def pyLowerChar (c : Char) : Char :=
  if 'A' ≤ c ∧ c ≤ 'Z' then Char.ofNat (c.toNat + 32) else c

/-- `query.lower()` on the character list. -/
def pyLower (s : List Char) : List Char := s.map pyLowerChar

/-- Does `s` start with `pat`? -/
def listStartsWith : List Char → List Char → Bool
  | [], _ => true
  | _ :: _, [] => false
  | p :: ps, c :: cs => p = c && listStartsWith ps cs

/-- Python's substring test `pat in s`. -/
def containsSub (pat s : List Char) : Bool :=
  match s with
  | [] => listStartsWith pat []
  | _ :: rest => listStartsWith pat s || containsSub pat rest

/-- `pat in s` on `String`s. -/
def pyIn (pat s : String) : Bool := containsSub pat.data s.data

/-- `pat in s.lower()` on `String`s. -/
def pyInLower (pat s : String) : Bool := containsSub pat.data (pyLower s.data)

/-- ASCII letter, the regex class `[a-zA-Z]`. -/
def isAsciiAlpha (c : Char) : Bool := ('a' ≤ c && c ≤ 'z') || ('A' ≤ c && c ≤ 'Z')

/-- ASCII digit, the regex class `\d` on ASCII input. -/
def isAsciiDigit (c : Char) : Bool := '0' ≤ c && c ≤ '9'

/-- Python regex whitespace `\s` (ASCII part). -/
def isPyWs (c : Char) : Bool :=
  c = ' ' || c = '\t' || c = '\n' || c = '\r' || c = '\x0B' || c = '\x0C'

/-- Python regex word character `\w` (ASCII part). -/
def isWordChar (c : Char) : Bool := isAsciiAlpha c || isAsciiDigit c || c = '_'

/-- Split off the longest prefix whose characters satisfy `p`. -/
def takeWhileSplit (p : Char → Bool) : List Char → List Char × List Char
  | [] => ([], [])
  | c :: cs =>
    if p c then
      let r := takeWhileSplit p cs
      (c :: r.1, r.2)
    else ([], c :: cs)

/-- Python `str.strip()`: drop leading and trailing whitespace. -/
def pyStrip (s : List Char) : List Char :=
  ((s.dropWhile isPyWs).reverse.dropWhile isPyWs).reverse

/-! ## The email-address regex

`r'[a-zA-Z0-9._%+-]+@[a-zA-Z0-9.-]+\.[a-zA-Z]{2,}'` is used by
`route_query` (agent_manager.py, line 524) and by all `send_email`
variants to detect/extract a recipient address. -/

/-- The regex class `[a-zA-Z0-9._%+-]` (local part). -/
def isEmailLocalChar (c : Char) : Bool :=
  isAsciiAlpha c || isAsciiDigit c || c = '.' || c = '_' || c = '%' || c = '+' || c = '-'

/-- The regex class `[a-zA-Z0-9.-]` (domain part). -/
def isEmailDomainChar (c : Char) : Bool :=
  isAsciiAlpha c || isAsciiDigit c || c = '.' || c = '-'

/-- Longest `[a-zA-Z]*` run at the head of the list. -/
def alphaRun (cs : List Char) : List Char := (takeWhileSplit isAsciiAlpha cs).1

/-- Inside the maximal `[a-zA-Z0-9.-]` run that follows `@`, find the
rightmost `.` that is followed by at least two letters (the greedy
backtracking choice of `[a-zA-Z0-9.-]+\.[a-zA-Z]{2,}`) and return the
matched characters from the current position on. -/
def domainMatchAux : List Char → Option (List Char)
  | [] => none
  | c :: cs =>
    match domainMatchAux cs with
    | some m => some (c :: m)
    | none =>
      if c = '.' && (alphaRun cs).length ≥ 2 then
        some (c :: alphaRun cs)
      else none

/-- Match `[a-zA-Z0-9.-]+\.[a-zA-Z]{2,}` at the head of `cs`, returning the
matched characters. -/
def emailDomainMatch (cs : List Char) : Option (List Char) :=
  match (takeWhileSplit isEmailDomainChar cs).1 with
  | [] => none
  | c :: rest => (domainMatchAux rest).map (fun m => c :: m)

/-- Match the full email regex at the head of `cs`. -/
def emailMatchAt (cs : List Char) : Option (List Char) :=
  match takeWhileSplit isEmailLocalChar cs with
  | ([], _) => none
  | (loc, '@' :: rest2) => (emailDomainMatch rest2).map (fun d => loc ++ '@' :: d)
  | (_, _) => none

/-- Leftmost match of the email regex (the semantics of `re.search` /
`re.findall(...)[0]`). -/
def emailSearchAux : List Char → Option (List Char)
  | [] => none
  | c :: cs =>
    match emailMatchAt (c :: cs) with
    | some m => some m
    | none => emailSearchAux cs

/-- `re.search(email_pattern, q)`, returning the matched address. -/
def emailSearch (s : String) : Option String :=
  (emailSearchAux s.data).map (fun cs => String.mk cs)

/-- Does the query contain a syntactically valid email address? -/
def containsEmail (s : String) : Bool := (emailSearchAux s.data).isSome

example : containsEmail "send to a@b.com now" = true := by decide
example : containsEmail "a@b.c" = false := by decide
example : containsEmail "schedule a meeting" = false := by decide
example : emailSearch "mail a@b.co.uk x" = some "a@b.co.uk" := by decide
example : emailSearch "x a@b.com2x" = some "a@b.com" := by decide

/-! ## JSON values and `json.loads`

`safe_json_parse` and the routing/extraction stages defensively parse LLM
output with `json.loads`.  `JVal` is the JSON value model; `jsonParse` is an
executable model of `json.loads` covering the JSON fragment the engine
exchanges (strings with the standard single-character escapes, integers,
booleans, null, arrays, objects).  On this fragment it agrees with Python:
leading/trailing whitespace is allowed, the whole input must be consumed,
duplicate object keys are resolved to the last binding. -/

inductive JVal where
  | jnull
  | jbool (b : Bool)
  | jnum (n : Int)
  | jstr (s : String)
  | jarr (xs : List JVal)
  | jobj (fields : List (String × JVal))

/-- JSON inter-token whitespace. -/
def isJsonWs (c : Char) : Bool := c = ' ' || c = '\t' || c = '\n' || c = '\r'

/-- Skip JSON whitespace. -/
def skipJsonWs (cs : List Char) : List Char := cs.dropWhile isJsonWs

/-- Parse the body of a JSON string (the opening quote already consumed). -/
def jsonStrAux : List Char → Option (List Char × List Char)
  | [] => none
  | '"' :: rest => some ([], rest)
  | '\\' :: e :: rest =>
    (match e with
     | '"' => some '"'
     | '\\' => some '\\'
     | '/' => some '/'
     | 'n' => some '\n'
     | 't' => some '\t'
     | 'r' => some '\r'
     | 'b' => some '\x08'
     | 'f' => some '\x0C'
     | _ => none).bind fun c =>
      (jsonStrAux rest).map fun (r : List Char × List Char) => (c :: r.1, r.2)
  | c :: rest =>
    if c.toNat < 32 then none
    else (jsonStrAux rest).map fun r => (c :: r.1, r.2)

/-- Longest `[0-9]*` run. -/
def digitRun (cs : List Char) : List Char := (takeWhileSplit isAsciiDigit cs).1

/-- Value of a digit list. -/
def digitsToNat : List Char → Nat → Nat
  | [], acc => acc
  | c :: cs, acc => digitsToNat cs (acc * 10 + (c.toNat - '0'.toNat))

/-- Parse a JSON integer (`-?(0|[1-9][0-9]*)`, no fraction/exponent). -/
def jsonNumAux (cs : List Char) : Option (Int × List Char) :=
  let core : List Char → Option (Nat × List Char) := fun t =>
    match t with
    | '0' :: rest => some (0, rest)
    | c :: _ =>
      if isAsciiDigit c then
        let r := takeWhileSplit isAsciiDigit t
        some (digitsToNat r.1 0, r.2)
      else none
    | [] => none
  match cs with
  | '-' :: rest => (core rest).map fun r => (-(r.1 : Int), r.2)
  | _ => (core cs).map fun r => ((r.1 : Int), r.2)

mutual

/-- Parse one JSON value (fuelled recursion; fuel exceeds nesting depth). -/
def jsonValAux : Nat → List Char → Option (JVal × List Char)
  | 0, _ => none
  | fuel + 1, cs =>
    match skipJsonWs cs with
    | '"' :: rest => (jsonStrAux rest).map fun r => (JVal.jstr (String.mk r.1), r.2)
    | '[' :: rest =>
      (match skipJsonWs rest with
       | ']' :: rest2 => some (JVal.jarr [], rest2)
       | t => (jsonArrAux fuel t).map fun r => (JVal.jarr r.1, r.2))
    | '{' :: rest =>
      (match skipJsonWs rest with
       | '}' :: rest2 => some (JVal.jobj [], rest2)
       | t => (jsonObjAux fuel t).map fun r => (JVal.jobj r.1, r.2))
    | 't' :: 'r' :: 'u' :: 'e' :: rest => some (JVal.jbool true, rest)
    | 'f' :: 'a' :: 'l' :: 's' :: 'e' :: rest => some (JVal.jbool false, rest)
    | 'n' :: 'u' :: 'l' :: 'l' :: rest => some (JVal.jnull, rest)
    | t => (jsonNumAux t).map fun r => (JVal.jnum r.1, r.2)

/-- Parse `value (, value)* ]` inside an array. -/
def jsonArrAux : Nat → List Char → Option (List JVal × List Char)
  | 0, _ => none
  | fuel + 1, cs =>
    (jsonValAux fuel cs).bind fun r =>
      match skipJsonWs r.2 with
      | ',' :: rest => (jsonArrAux fuel rest).map fun r2 => (r.1 :: r2.1, r2.2)
      | ']' :: rest => some ([r.1], rest)
      | _ => none

/-- Parse `"key": value (, "key": value)* }` inside an object. -/
def jsonObjAux : Nat → List Char → Option (List (String × JVal) × List Char)
  | 0, _ => none
  | fuel + 1, cs =>
    match skipJsonWs cs with
    | '"' :: rest =>
      (jsonStrAux rest).bind fun k =>
        match skipJsonWs k.2 with
        | ':' :: rest2 =>
          (jsonValAux fuel rest2).bind fun v =>
            match skipJsonWs v.2 with
            | ',' :: rest3 =>
              (jsonObjAux fuel rest3).map fun r2 => ((String.mk k.1, v.1) :: r2.1, r2.2)
            | '}' :: rest3 => some ([(String.mk k.1, v.1)], rest3)
            | _ => none
        | _ => none
    | _ => none

end

/-- Model of `json.loads` on the engine's JSON fragment. -/
def jsonParse (s : String) : Option JVal :=
  match jsonValAux (s.data.length + 2) s.data with
  | some (v, rest) => if skipJsonWs rest = [] then some v else none
  | none => none

/-- Dictionary lookup; Python keeps the last of duplicate JSON keys. -/
def lookupField (fs : List (String × JVal)) (k : String) : Option JVal :=
  match fs with
  | [] => none
  | (k2, v) :: rest =>
    match lookupField rest k with
    | some v2 => some v2
    | none => if k2 = k then some v else none

example : jsonParse " \x7b\"agents\": [\"email\"]\x7d " =
    some (JVal.jobj [("agents", JVal.jarr [JVal.jstr "email"])]) := rfl
example : jsonParse "pick [\"email\"] please" = none := rfl
example : jsonParse "" = none := rfl
example : jsonParse "[1, -2]" = some (JVal.jarr [JVal.jnum 1, JVal.jnum (-2)]) := rfl

/-! ## `safe_json_parse` (agent_manager.py 55-72, main_code.py 68-93) -/

/-- Rest of the list after a literal pattern, if it is a prefix. -/
def dropLit : List Char → List Char → Option (List Char)
  | [], s => some s
  | p :: ps, c :: cs => if p = c then dropLit ps cs else none
  | _ :: _, [] => none

/-- After `"agents":` and `\s*`, match `(\[[^\]]+\])` and return the
bracketed group. -/
def agentsBracket (cs : List Char) : Option (List Char) :=
  match (cs.dropWhile isPyWs) with
  | '[' :: rest =>
    match takeWhileSplit (fun c => c ≠ ']') rest with
    | ([], _) => none
    | (inner, ']' :: _) => some ('[' :: inner ++ [']'])
    | (_, _) => none
  | _ => none

/-- `re.search(r'"agents":\s*(\[[^\]]+\])', text)`, returning group 1. -/
def agentsFragAux : List Char → Option (List Char)
  | [] => none
  | c :: rest =>
    match dropLit "\"agents\":".data (c :: rest) with
    | some after =>
      match agentsBracket after with
      | some g => some g
      | none => agentsFragAux rest
    | none => agentsFragAux rest

/-- Characters up to the first `]` (exclusive); `none` when a newline or the
end of the input comes first (`.` does not match a newline). -/
def toCloseBracket : List Char → Option (List Char)
  | [] => none
  | ']' :: _ => some []
  | '\n' :: _ => none
  | c :: rest => (toCloseBracket rest).map (c :: ·)

/-- `re.search(r'\[(.*?)\]', text)`, returning group 0 (the whole
non-greedy bracketed match). -/
def anyArrayFragAux : List Char → Option (List Char)
  | [] => none
  | '[' :: rest =>
    (match toCloseBracket rest with
     | some inner => some ('[' :: inner ++ [']'])
     | none => anyArrayFragAux rest)
  | _ :: rest => anyArrayFragAux rest

/-- Group 1 of the `"agents"` fragment regex on a `String`. -/
def agentsFrag (s : String) : Option String :=
  (agentsFragAux s.data).map String.mk

/-- Group 0 of the any-array regex on a `String`. -/
def anyArrayFrag (s : String) : Option String :=
  (anyArrayFragAux s.data).map String.mk

/-- The hard-coded fallback value `{"agents": ["calendar_list"]}`. -/
def agentsDefault : JVal := JVal.jobj [("agents", JVal.jarr [JVal.jstr "calendar_list"])]

/-- agent_manager.py `safe_json_parse` (lines 55-72): on a JSON decode
error, only an `"agents": [...]` fragment is salvaged; any exception in the
salvage attempt falls through to the default. -/
def safeJsonParse_am (text : String) (dflt : Option JVal) : JVal :=
  match jsonParse text with
  | some v => v
  | none =>
    match
      (if pyIn "\"agents\":" text then
        (agentsFrag text).bind fun frag =>
          (jsonParse frag).map fun arr => JVal.jobj [("agents", arr)]
      else none) with
    | some v => v
    | none => dflt.getD agentsDefault

/-- The salvage attempt of main_code.py `safe_json_parse`: the
`"agents": [...]` fragment first; when the fragment regex does not match (or
the `"agents":` marker is absent), any bracketed array.  A `json.loads`
failure inside either attempt aborts the whole `try` block (yielding the
default), exactly as the source's single `except` does. -/
def salvage_mc (text : String) : Option JVal :=
  if pyIn "\"agents\":" text then
    match agentsFrag text with
    | some frag => (jsonParse frag).map fun arr => JVal.jobj [("agents", arr)]
    | none =>
      (anyArrayFrag text).bind fun frag =>
        (jsonParse frag).map fun arr => JVal.jobj [("agents", arr)]
  else
    (anyArrayFrag text).bind fun frag =>
      (jsonParse frag).map fun arr => JVal.jobj [("agents", arr)]

/-- main_code.py `safe_json_parse` (lines 68-93). -/
def safeJsonParse_mc (text : String) (dflt : Option JVal) : JVal :=
  if text = "" then dflt.getD agentsDefault
  else
    match jsonParse text with
    | some v => v
    | none =>
      match salvage_mc text with
      | some v => v
      | none => dflt.getD agentsDefault

example : safeJsonParse_mc "pick [\"email\"] please" none =
    JVal.jobj [("agents", JVal.jarr [JVal.jstr "email"])] := rfl
example : safeJsonParse_am "pick [\"email\"] please" none = agentsDefault := rfl
example : safeJsonParse_am "x \"agents\": [\"email\"] y" none =
    JVal.jobj [("agents", JVal.jarr [JVal.jstr "email"])] := rfl

/-! ## Routing (route_query: agent_manager.py 519-583, main_code.py
2330-2402, agent_managerr.py 308-331) -/

/-- Case-insensitive `listStartsWith` (pattern given in lowercase). -/
def listStartsWithCI : List Char → List Char → Bool
  | [], _ => true
  | _ :: _, [] => false
  | p :: ps, c :: cs => p = pyLowerChar c && listStartsWithCI ps cs

/-- Rest of the list after a case-insensitive literal pattern. -/
def dropLitCI : List Char → List Char → Option (List Char)
  | [], s => some s
  | p :: ps, c :: cs => if p = pyLowerChar c then dropLitCI ps cs else none
  | _ :: _, [] => none

/-- Case-insensitive substring test. -/
def containsSubCI (pat s : List Char) : Bool :=
  match s with
  | [] => listStartsWithCI pat []
  | _ :: rest => listStartsWithCI pat s || containsSubCI pat rest

/-- Does `f` hold at some suffix (i.e. does the pattern match starting at
some position)?  The generic `re.search` position scan. -/
def searchBy (f : List Char → Bool) : List Char → Bool
  | [] => f []
  | c :: cs => f (c :: cs) || searchBy f cs

/-- Consume `\s+` (at least one whitespace character). -/
def wsPlus (cs : List Char) : Option (List Char) :=
  match takeWhileSplit isPyWs cs with
  | ([], _) => none
  | (_, rest) => some rest

/-- `(meeting|appointment|call|interview)\s+(?:with|on)\s+` at the current
position (re.IGNORECASE). -/
def meetingWithAt (cs : List Char) : Bool :=
  ["meeting", "appointment", "call", "interview"].any fun kw =>
    match dropLitCI kw.data cs with
    | some r1 =>
      (match wsPlus r1 with
       | some r2 =>
         (match dropLitCI "with".data r2 with
          | some r3 => (wsPlus r3).isSome
          | none => false) ||
         (match dropLitCI "on".data r2 with
          | some r3 => (wsPlus r3).isSome
          | none => false)
       | none => false)
    | none => false

/-- `re.search(r'(meeting|appointment|call|interview)\s+(?:with|on)\s+', q, re.IGNORECASE)`. -/
def regexMeetingWith (q : String) : Bool := searchBy meetingWithAt q.data

/-- `what.*calendar` at the current position: `what`, then `calendar`
further along the same line (`.` does not cross a newline). -/
def whatCalendarAt (cs : List Char) : Bool :=
  match dropLitCI "what".data cs with
  | some r => containsSubCI "calendar".data (r.takeWhile (fun c => c ≠ '\n'))
  | none => false

/-- `re.search(r'what.*calendar', q, re.IGNORECASE)`. -/
def regexWhatCalendar (q : String) : Bool := searchBy whatCalendarAt q.data

/-- `(today|tomorrow|this week).*events` at the current position. -/
def todayEventsAt (cs : List Char) : Bool :=
  ["today", "tomorrow", "this week"].any fun kw =>
    match dropLitCI kw.data cs with
    | some r => containsSubCI "events".data (r.takeWhile (fun c => c ≠ '\n'))
    | none => false

/-- `re.search(r'(today|tomorrow|this week).*events', q, re.IGNORECASE)`. -/
def regexTodayEvents (q : String) : Bool := searchBy todayEventsAt q.data

/-- Second half of `.+@.+\..+`, after the `@`: at least one non-newline
character, a literal `.`, then at least one non-newline character. -/
def matchDotDot : List Char → Bool
  | [] => false
  | '.' :: rest =>
    (match rest with
     | d :: _ => d ≠ '\n'
     | [] => false) || matchDotDot rest
  | c :: rest => c ≠ '\n' && matchDotDot rest

/-- After the `@` of `.+@.+\..+`: consume one non-newline char then the
dot part. -/
def matchDotTail : List Char → Bool
  | [] => false
  | c :: rest => c ≠ '\n' && matchDotDot rest

/-- Inside the first `.+` of `.+@.+\..+`: look for an `@` (which may also
be consumed by `.+` itself). -/
def matchAtSign : List Char → Bool
  | [] => false
  | '@' :: rest => matchDotTail rest || matchAtSign rest
  | c :: rest => c ≠ '\n' && matchAtSign rest

/-- `.+@.+\..+` at the current position: one non-newline char, then the
`@` search. -/
def dotEmailAt : List Char → Bool
  | [] => false
  | c :: rest => c ≠ '\n' && matchAtSign rest

/-- `\s+` then `.+@.+\..+`: try each split with at least one leading
whitespace character. -/
def contactWsSearch : List Char → Bool
  | [] => false
  | c :: rest => isPyWs c && (dotEmailAt rest || contactWsSearch rest)

/-- `(contact|message|reach out to)\s+.+@.+\..+` at the current position. -/
def contactEmailAt (cs : List Char) : Bool :=
  ["contact", "message", "reach out to"].any fun kw =>
    match dropLitCI kw.data cs with
    | some r1 => contactWsSearch r1
    | none => false

/-- `re.search(r'(contact|message|reach out to)\s+.+@.+\..+', q, re.IGNORECASE)`. -/
def regexContactEmail (q : String) : Bool := searchBy contactEmailAt q.data

/-- Python `str(...)` of an agents entry, used only by the
unknown-action message. -/
def jvalToActionName : JVal → String
  | JVal.jstr s => s
  | JVal.jnum n => toString n
  | JVal.jbool true => "True"
  | JVal.jbool false => "False"
  | JVal.jnull => "None"
  | JVal.jarr _ => "[...]"
  | JVal.jobj _ => "\x7b...\x7d"

/-- Python type name, for exception messages. -/
def pyTypeName : JVal → String
  | JVal.jstr _ => "str"
  | JVal.jnum _ => "int"
  | JVal.jbool _ => "bool"
  | JVal.jnull => "NoneType"
  | JVal.jarr _ => "list"
  | JVal.jobj _ => "dict"

/-- The value stored into `state["actions"]`.  A JSON array yields its
entries; a string is a Python iterable of its characters; iterating any
other value raises a `TypeError` later, in `execute_tools`'s `for` loop
(modelled as `.error`). -/
def agentsToActions (v : JVal) : Except String (List String) :=
  match v with
  | JVal.jarr xs => Except.ok (xs.map jvalToActionName)
  | JVal.jstr s => Except.ok (s.data.map fun c => String.mk [c])
  | other => Except.error ("TypeError: '" ++ pyTypeName other ++ "' object is not iterable")

/-- Result of a routing node: the actions list (`.error` when iterating it
will raise), whether the LLM completion endpoint was actually called, and
any `final_response` the route stage wrote into the state. -/
structure RouteOut where
  actions : Except String (List String)
  llmInvoked : Bool
  finalResponse : Option String

/-- The last-resort keyword guess of main_code.py `route_query`
(lines 2394-2401). -/
def keywordGuess_mc (q : String) (invoked : Bool) : RouteOut :=
  if pyInLower "schedule" q || pyInLower "meeting" q || pyInLower "event" q then
    ⟨Except.ok ["calendar_create"], invoked, none⟩
  else if pyInLower "email" q || pyIn "@" q then
    ⟨Except.ok ["email"], invoked, none⟩
  else
    ⟨Except.ok ["calendar_list"], invoked, none⟩

/-- agent_manager.py `route_query` (lines 519-583).  `groqAvail` models
`get_groq_client()` returning a client; `llm` the completion call
(`.error` = raised exception, handled by the function's `except`). -/
def routeQuery_am (q : String) (groqAvail : Bool) (llm : Except String String) : RouteOut :=
  if containsEmail q then ⟨Except.ok ["email"], false, none⟩
  else if ["send email", "compose email", "write email", "mail to", "email to"].any
      (fun k => pyInLower k q) then
    ⟨Except.ok ["email"], false, none⟩
  else if !groqAvail then
    ⟨Except.ok [], false, some "❌ Error initializing Groq client. Please check your API key."⟩
  else
    match llm with
    | Except.error e =>
      ⟨Except.ok ["calendar_list"], true, some ("❌ Error determining required agents: " ++ e)⟩
    | Except.ok content =>
      match safeJsonParse_am content (some agentsDefault) with
      | JVal.jobj fs =>
        (match lookupField fs "agents" with
         | some v => ⟨agentsToActions v, true, none⟩
         | none => ⟨Except.ok ["calendar_list"], true, none⟩)
      | other =>
        ⟨Except.ok ["calendar_list"], true,
          some ("❌ Error determining required agents: '" ++ pyTypeName other ++
            "' object has no attribute 'get'")⟩

/-- main_code.py `route_query` (lines 2330-2402): keyword stages, advanced
regex stages, LLM fallback, last-resort keyword guess. -/
def routeQuery_mc (q : String) (groqAvail : Bool) (llm : Except String String) : RouteOut :=
  if ["schedule", "create event", "add to calendar", "book"].any (fun k => pyInLower k q) then
    ⟨Except.ok ["calendar_create"], false, none⟩
  else if ["list", "show", "upcoming events", "my events", "what events"].any
      (fun k => pyInLower k q) then
    ⟨Except.ok ["calendar_list"], false, none⟩
  else if ["send email", "email to", "write email", "compose email"].any
      (fun k => pyInLower k q) then
    ⟨Except.ok ["email"], false, none⟩
  else if regexMeetingWith q then ⟨Except.ok ["calendar_create"], false, none⟩
  else if regexWhatCalendar q || regexTodayEvents q then ⟨Except.ok ["calendar_list"], false, none⟩
  else if regexContactEmail q then ⟨Except.ok ["email"], false, none⟩
  else if groqAvail then
    match llm with
    | Except.ok content =>
      (match safeJsonParse_mc content (some agentsDefault) with
       | JVal.jobj fs =>
         (match lookupField fs "agents" with
          | some v => ⟨agentsToActions v, true, none⟩
          | none => ⟨Except.ok ["calendar_list"], true, none⟩)
       | _ => keywordGuess_mc q true)
    | Except.error _ => keywordGuess_mc q true
  else keywordGuess_mc q false

/-- agent_managerr.py `route_query` (lines 308-331): a raw LLM call with no
exception handling; a transport error or a malformed response propagates
(outer `.error`).  The inner `Except` is the iterability of the stored
actions value. -/
def routeQuery_rr (llm : Except String String) :
    Except String (Except String (List String)) :=
  match llm with
  | Except.error e => Except.error e
  | Except.ok content =>
    match jsonParse content with
    | none => Except.error "json.decoder.JSONDecodeError: Expecting value"
    | some (JVal.jobj fs) =>
      (match lookupField fs "agents" with
       | some v => Except.ok (agentsToActions v)
       | none => Except.error "KeyError: 'agents'")
    | some other =>
      Except.error ("TypeError: '" ++ pyTypeName other ++ "' object is not subscriptable")

example : routeQuery_am "schedule sync with a@b.com" true (Except.ok "x") =
    ⟨Except.ok ["email"], false, none⟩ := rfl
example : routeQuery_mc "schedule sync with a@b.com" true (Except.ok "x") =
    ⟨Except.ok ["calendar_create"], false, none⟩ := rfl
example : routeQuery_mc "ping zz" true (Except.ok "\x7b\"agents\": [\"email\"]\x7d") =
    ⟨Except.ok ["email"], true, none⟩ := rfl
example : regexMeetingWith "an interview  on  Monday" = true := by decide
example : regexContactEmail "contact a@b.c now" = true := by decide
example : regexWhatCalendar "what is on my calendar" = true := by decide

/-! ## Python datetimes (naive, seconds always zero in this engine) -/

/-- A naive `datetime` down to minutes (every datetime this engine builds
has zero seconds). -/
structure PyDateTime where
  year : Nat
  month : Nat
  day : Nat
  hour : Nat
  minute : Nat
deriving DecidableEq

/-- A `date`. -/
structure PyDate where
  year : Nat
  month : Nat
  day : Nat
deriving DecidableEq

def isLeapYear (y : Nat) : Bool := (y % 4 = 0 && y % 100 ≠ 0) || y % 400 = 0

def daysInMonth (y m : Nat) : Nat :=
  if m = 2 then (if isLeapYear y then 29 else 28)
  else if m = 4 || m = 6 || m = 9 || m = 11 then 30
  else 31

/-- The bounds `datetime` itself enforces. -/
def validDT (t : PyDateTime) : Bool :=
  1 ≤ t.year && t.year ≤ 9999 && 1 ≤ t.month && t.month ≤ 12 &&
  1 ≤ t.day && t.day ≤ daysInMonth t.year t.month && t.hour ≤ 23 && t.minute ≤ 59

/-- Total order key; lexicographic on (year, month, day, hour, minute) for
in-bounds datetimes. -/
def dtKey (t : PyDateTime) : Nat :=
  (((t.year * 13 + t.month) * 32 + t.day) * 24 + t.hour) * 60 + t.minute

/-- `a <= b` on datetimes. -/
def dtLe (a b : PyDateTime) : Bool := dtKey a ≤ dtKey b

/-- `a < b` on datetimes. -/
def dtLt (a b : PyDateTime) : Bool := dtKey a < dtKey b

/-- `dt + timedelta(hours=1)`. -/
def pyAddOneHour (t : PyDateTime) : PyDateTime :=
  if t.hour + 1 ≤ 23 then { t with hour := t.hour + 1 }
  else if t.day + 1 ≤ daysInMonth t.year t.month then { t with hour := 0, day := t.day + 1 }
  else if t.month + 1 ≤ 12 then { t with hour := 0, day := 1, month := t.month + 1 }
  else { t with hour := 0, day := 1, month := 1, year := t.year + 1 }

/-- `date + timedelta(days=1)` (in particular `(now + timedelta(days=1)).date()`). -/
def pyNextDay (d : PyDate) : PyDate :=
  if d.day + 1 ≤ daysInMonth d.year d.month then { d with day := d.day + 1 }
  else if d.month + 1 ≤ 12 then { d with day := 1, month := d.month + 1 }
  else { d with day := 1, month := 1, year := d.year + 1 }

/-- `dt.replace(hour=h, minute=m)`: `ValueError` outside the field bounds. -/
def pyReplaceHM (t : PyDateTime) (h m : Nat) : Option PyDateTime :=
  if h ≤ 23 && m ≤ 59 then some { t with hour := h, minute := m } else none

/-- `datetime(year, month, day).date()`: `ValueError` for an invalid date. -/
def mkDate (y m d : Nat) : Option PyDate :=
  if 1 ≤ y && y ≤ 9999 && 1 ≤ m && m ≤ 12 && 1 ≤ d && d ≤ daysInMonth y m then
    some ⟨y, m, d⟩
  else none

/-- `datetime.combine(date, time)`. -/
def pyCombine (d : PyDate) (h m : Nat) : PyDateTime := ⟨d.year, d.month, d.day, h, m⟩

/-- Greedy `\d{1,maxN}` (at least one digit), returning the digits and the
rest. -/
def takeDigitsUpTo : Nat → List Char → Option (List Char × List Char)
  | _, [] => none
  | 0, _ => none
  | maxN + 1, c :: cs =>
    if isAsciiDigit c then
      match takeDigitsUpTo maxN cs with
      | some (ds, rest) => some (c :: ds, rest)
      | none => some ([c], c :: cs |>.tail)
    else none

/-- Expect a literal character. -/
def expectChar (c : Char) : List Char → Option (List Char)
  | d :: rest => if d = c then some rest else none
  | [] => none

/-- `datetime.strptime(s, '%Y-%m-%dT%H:%M:%S')` (as used on
`f"{date}T{time}:00"`): `none` models the `ValueError` on a mismatch or an
out-of-range date. -/
def strptimeDT (s : String) : Option PyDateTime :=
  (takeDigitsUpTo 4 s.data).bind fun y =>
  (expectChar '-' y.2).bind fun r1 =>
  (takeDigitsUpTo 2 r1).bind fun mo =>
  (expectChar '-' mo.2).bind fun r2 =>
  (takeDigitsUpTo 2 r2).bind fun d =>
  (expectChar 'T' d.2).bind fun r3 =>
  (takeDigitsUpTo 2 r3).bind fun h =>
  (expectChar ':' h.2).bind fun r4 =>
  (takeDigitsUpTo 2 r4).bind fun mi =>
  (expectChar ':' mi.2).bind fun r5 =>
  (takeDigitsUpTo 2 r5).bind fun sec =>
  if sec.2 = [] && digitsToNat sec.1 0 ≤ 59 then
    let t : PyDateTime :=
      ⟨digitsToNat y.1 0, digitsToNat mo.1 0, digitsToNat d.1 0,
       digitsToNat h.1 0, digitsToNat mi.1 0⟩
    if validDT t then some t else none
  else none

example : strptimeDT "2024-03-22T16:00:00" = some ⟨2024, 3, 22, 16, 0⟩ := by decide
example : strptimeDT "2024-02-30T10:00:00" = none := by decide
example : strptimeDT "2024-03-22T4 PM:00" = none := by decide

/-! ## The time-range / time / date regexes of the event resolvers -/

/-- Leftmost-position search returning the first successful match payload. -/
def searchOptBy {α : Type} (f : List Char → Option α) : List Char → Option α
  | [] => f []
  | c :: cs =>
    match f (c :: cs) with
    | some a => some a
    | none => searchOptBy f cs

/-- First candidate accepted by `f`. -/
def pickFirst {α β : Type} (f : α → Option β) : List α → Option β
  | [] => none
  | x :: xs =>
    match f x with
    | some r => some r
    | none => pickFirst f xs

/-- `int(group)` where the group is made of digits and possibly a colon
(`ValueError` when a colon is present, caught by the caller's `except`). -/
def pyIntDigits (cs : List Char) : Option Nat :=
  if cs ≠ [] && cs.all isAsciiDigit then some (digitsToNat cs 0) else none

/-- `(\d+(?:\:\d+)?)` of the create-flow range regex: greedy digits with an
optional colon-and-digits part, captured as one group. -/
def numColon (cs : List Char) : Option (List Char × List Char) :=
  match takeWhileSplit isAsciiDigit cs with
  | ([], _) => none
  | (ds, ':' :: rest2) =>
    (match takeWhileSplit isAsciiDigit rest2 with
     | ([], _) => some (ds, ':' :: rest2)
     | (ds2, rest3) => some (ds ++ ':' :: ds2, rest3))
  | (ds, rest) => some (ds, rest)

/-- Consume `am|pm` on already-lowercased text. -/
def amPmLit (cs : List Char) : Option (List Char) :=
  match dropLit "am".data cs with
  | some r => some r
  | none => dropLit "pm".data cs

/-- `from\s+(\d+(?:\:\d+)?)\s*(?:am|pm)\s+to\s+(\d+(?:\:\d+)?)\s*(?:am|pm)`
at the current position of the lowercased query (agent_manager.py line 158,
main_code.py line 176), returning the two captured groups. -/
def fromToRangeAt (cs : List Char) : Option (List Char × List Char) :=
  (dropLit "from".data cs).bind fun r1 =>
  (wsPlus r1).bind fun r2 =>
  (numColon r2).bind fun g1 =>
  (amPmLit (g1.2.dropWhile isPyWs)).bind fun r4 =>
  (wsPlus r4).bind fun r5 =>
  (dropLit "to".data r5).bind fun r6 =>
  (wsPlus r6).bind fun r7 =>
  (numColon r7).bind fun g2 =>
  (amPmLit (g2.2.dropWhile isPyWs)).map fun _ => (g1.1, g2.1)

/-- `re.search` of the create-flow range regex over the lowercased query. -/
def fromToSearch (cs : List Char) : Option (List Char × List Char) :=
  searchOptBy fromToRangeAt cs

example : fromToSearch (pyLower "Schedule kickoff from 4 PM to 6 PM".data) =
    some ("4".data, "6".data) := by decide
example : fromToSearch (pyLower "from 4:30 pm to 6 pm".data) =
    some ("4:30".data, "6".data) := by decide

/-- `(\d{1,2})` with its backtracking choices (two digits first). -/
def digits12 (cs : List Char) : List (List Char × List Char) :=
  match cs with
  | a :: b :: rest =>
    if isAsciiDigit a then
      if isAsciiDigit b then [([a, b], rest), ([a], b :: rest)]
      else [([a], b :: rest)]
    else []
  | [a] => if isAsciiDigit a then [([a], [])] else []
  | [] => []

/-- `(am|pm)` case-insensitively; the captured group is reported
lowercased, as the callers immediately apply `.lower()`. -/
def meridCI (cs : List Char) : Option (List Char × List Char) :=
  match dropLitCI "am".data cs with
  | some r => some ("am".data, r)
  | none => (dropLitCI "pm".data cs).map fun r => ("pm".data, r)

/-- `(?::(\d{2}))?\s*(am|pm)`: optional exactly-two-digit minutes, then the
meridiem.  Returns (minutes?, meridiem, rest). -/
def timeTail (rest : List Char) : Option (Option (List Char) × List Char × List Char) :=
  match
    (match rest with
     | ':' :: a :: b :: rest2 =>
       if isAsciiDigit a && isAsciiDigit b then
         (meridCI (rest2.dropWhile isPyWs)).map fun (r : List Char × List Char) =>
           (some [a, b], r.1, r.2)
       else none
     | _ => none) with
  | some r => some r
  | none =>
    (meridCI (rest.dropWhile isPyWs)).map fun (r : List Char × List Char) =>
      ((none : Option (List Char)), r.1, r.2)

/-- `(\d{1,2})(?::(\d{2}))?\s*(am|pm)` at the current position, with the
rest of the input. -/
def timePieceAt (cs : List Char) :
    Option ((List Char × Option (List Char) × List Char) × List Char) :=
  pickFirst
    (fun hd =>
      (timeTail hd.2).map fun t => ((hd.1, t.1, t.2.1), t.2.2))
    (digits12 cs)

/-- `at\s+(\d{1,2})(?::(\d{2}))?\s*(am|pm)` at the current position
(main_code.py line 319). -/
def atTimeAt (cs : List Char) :
    Option (List Char × Option (List Char) × List Char) :=
  (dropLitCI "at".data cs).bind fun r1 =>
  (wsPlus r1).bind fun r2 =>
  (timePieceAt r2).map fun r => r.1

/-- `re.search` of the `at <time>` regex. -/
def atTimeSearch (cs : List Char) : Option (List Char × Option (List Char) × List Char) :=
  searchOptBy atTimeAt cs

/-- The simple-parser range regex
`from\s+(\d{1,2})(?::(\d{2}))?\s*(am|pm)\s+to\s+(\d{1,2})(?::(\d{2}))?\s*(am|pm)`
(main_code.py line 332), at the current position. -/
def fromRangeCIAt (cs : List Char) :
    Option ((List Char × Option (List Char) × List Char) ×
            (List Char × Option (List Char) × List Char)) :=
  (dropLitCI "from".data cs).bind fun r1 =>
  (wsPlus r1).bind fun r2 =>
  (timePieceAt r2).bind fun p1 =>
  (wsPlus p1.2).bind fun r4 =>
  (dropLitCI "to".data r4).bind fun r5 =>
  (wsPlus r5).bind fun r6 =>
  (timePieceAt r6).map fun p2 => (p1.1, p2.1)

/-- `re.search` of the simple-parser range regex. -/
def fromRangeCISearch (cs : List Char) :
    Option ((List Char × Option (List Char) × List Char) ×
            (List Char × Option (List Char) × List Char)) :=
  searchOptBy fromRangeCIAt cs

example : atTimeSearch "Meeting at 2:30 PM".data =
    some ("2".data, some "30".data, "pm".data) := by decide
example : (fromRangeCISearch "from 5 pm to 4 pm".data).isSome = true := by decide

/-- `(?:st|nd|rd|th)?` after the day digits of the `on <day> <month>`
regex, with backtracking to not taking the suffix. -/
def ordSuffixChoices (cs : List Char) : List (List Char) :=
  match
    pickFirst (fun suf => dropLitCI suf cs)
      ["st".data, "nd".data, "rd".data, "th".data] with
  | some r => [r, cs]
  | none => [cs]

/-- `on\s+(\d{1,2})(?:st|nd|rd|th)?\s+(\w+)` at the current position
(main_code.py line 292): returns (day digits, month word). -/
def onDateAt (cs : List Char) : Option (List Char × List Char) :=
  (dropLitCI "on".data cs).bind fun r1 =>
  (wsPlus r1).bind fun r2 =>
  pickFirst
    (fun hd =>
      pickFirst
        (fun afterSuf =>
          (wsPlus afterSuf).bind fun r3 =>
          match takeWhileSplit isWordChar r3 with
          | ([], _) => none
          | (w, _) => some (hd.1, w))
        (ordSuffixChoices hd.2))
    (digits12 r2)

/-- `re.search` of the `on <day> <month>` regex. -/
def onDateSearch (cs : List Char) : Option (List Char × List Char) :=
  searchOptBy onDateAt cs

example : onDateSearch "party on 22nd March at noon".data =
    some ("22".data, "March".data) := by decide

/-- `re.match(r'^(.*?)(?:on|tomorrow|next|this|at|from)', query, re.IGNORECASE)`:
group 1, the shortest prefix (within the first line) before one of the
temporal keywords. -/
def titleSplitAux : List Char → Option (List Char)
  | [] => none
  | c :: rest =>
    if ["on", "tomorrow", "next", "this", "at", "from"].any
        (fun k => listStartsWithCI k.data (c :: rest)) then some []
    else if c = '\n' then none
    else (titleSplitAux rest).map (c :: ·)

/-- `at\s+([\w\s]+)(?:$|\.)` at the current position (main_code.py
line 349): group 1. -/
def locTailAt (cs : List Char) : Option (List Char) :=
  (dropLitCI "at".data cs).bind fun r =>
  (wsPlus r).bind fun r2 =>
  match takeWhileSplit (fun c => isWordChar c || isPyWs c) r2 with
  | ([], _) => none
  | (run, []) => some run
  | (run, '.' :: _) => some run
  | (_, _) => none

/-- `re.search` of the trailing-location regex. -/
def locSearch (cs : List Char) : Option (List Char) := searchOptBy locTailAt cs

example : (titleSplitAux "Team sync tomorrow at 2 PM".data).map String.mk =
    some "Team sync " := by decide
example : (locSearch "Meeting at Conference Room 3".data).map String.mk =
    some "Conference Room 3" := by decide

/-! ## Event resolution (create_calendar_event: agent_manager.py 74-252,
main_code.py 95-259; simple_event_parser: main_code.py 261-392)

The resolvers are modelled up to the calendar-insert call: their result is
either the finalized `EventDraft` handed to the calendar collaborator, or
the error string returned to the caller instead. -/

/-- The fields of the JSON object returned by the LLM extraction prompt.
`end_time` is `none` when the key is absent; empty strings/lists model the
falsy "not specified" values the prompt asks for.  (A response missing
`summary`, `date` or `start_time` raises `KeyError`, which the outer
handler turns into a generic error string; such responses are not
produced by the prompt contract and are outside this record.) -/
structure EventDetails where
  summary : String
  date : String
  start_time : String
  end_time : Option String
  location : String
  attendees : List String
  description : String

/-- Outcome of the LLM extraction stage as seen by
`create_calendar_event`: the Groq client may be unavailable, the
completion call may raise, the response may fail `json.loads`, or it
parses into an `EventDetails`. -/
inductive LlmParse where
  | unavailable
  | raised (emsg : String)
  | badJson (emsg : String)
  | ok (d : EventDetails)

/-- The finalized event draft sent to the calendar collaborator
(`location`/`description` empty = field omitted from the request body). -/
structure EventDraft where
  summary : String
  startDT : PyDateTime
  endDT : PyDateTime
  location : String
  description : String
deriving DecidableEq

/-- Result of a create-event flow: the draft inserted into the calendar,
or the error string returned instead. -/
inductive CreateResult where
  | error (msg : String)
  | draft (e : EventDraft)
deriving DecidableEq

/-- End-time defaulting and sanity correction of the shared
`create_calendar_event` body (agent_manager.py 134-151, main_code.py
157-170): the LLM's end time is used when present, non-empty, different
from the start value, parseable and strictly after the start; otherwise
start + 1 hour. -/
def defaultEnd (d : EventDetails) (startDT : PyDateTime) : PyDateTime :=
  match d.end_time with
  | some et =>
    if et ≠ "" && et ≠ d.start_time then
      match strptimeDT (d.date ++ "T" ++ et ++ ":00") with
      | some ed => if dtLe ed startDT then pyAddOneHour startDT else ed
      | none => pyAddOneHour startDT
    else pyAddOneHour startDT
  | none => pyAddOneHour startDT

/-- "Directly parse from input if LLM fails": the range override
(agent_manager.py 153-176, main_code.py 172-193).  It runs after the
sanity correction and overwrites only the end time; the parsed start hour
is converted but never used. -/
def rangeOverride (query : String) (startDT endDT1 : PyDateTime) : PyDateTime :=
  if pyInLower "from" query && pyInLower "to" query && pyInLower "pm" query then
    match fromToSearch (pyLower query.data) with
    | some g =>
      (match pyIntDigits g.1, pyIntDigits g.2 with
       | some _, some endHr =>
         let endHr2 := if pyInLower "pm" query && endHr < 12 then endHr + 12 else endHr
         (match pyReplaceHM startDT endHr2 0 with
          | some e2 => e2
          | none => endDT1)        -- ValueError in replace: `except: pass`
       | _, _ => endDT1)           -- int() ValueError: `except: pass`
    | none => endDT1
  else endDT1

/-- The draft computation shared verbatim by agent_manager.py (lines
129-221) and main_code.py (lines 153-234) once `event_details` parsed. -/
def llmOkDraft (query : String) (d : EventDetails) : CreateResult :=
  match strptimeDT (d.date ++ "T" ++ d.start_time ++ ":00") with
  | none =>
    CreateResult.error ("❌ Failed to create calendar event: time data '" ++
      d.date ++ "T" ++ d.start_time ++ ":00' does not match format '%Y-%m-%dT%H:%M:%S'")
  | some startDT =>
    let descr :=
      if d.attendees ≠ [] then
        d.description ++ "\n\nAttendees: " ++ String.intercalate ", " d.attendees
      else d.description
    CreateResult.draft
      ⟨d.summary, startDT, rangeOverride query startDT (defaultEnd d startDT),
        d.location, descr⟩

/-- agent_manager.py `create_calendar_event` (lines 74-252): no heuristic
fallback — an unavailable client or unparsable JSON yields an error string
directly. -/
def resolveEvent_am (query : String) (llm : LlmParse) : CreateResult :=
  match llm with
  | LlmParse.unavailable =>
    CreateResult.error "❌ Error initializing Groq client. Please check your API key."
  | LlmParse.raised e => CreateResult.error ("❌ Failed to create calendar event: " ++ e)
  | LlmParse.badJson e => CreateResult.error ("❌ Failed to parse event details: " ++ e)
  | LlmParse.ok d => llmOkDraft query d

/-- The month-name dictionary of `simple_event_parser`. -/
def monthDict : List (String × Nat) :=
  [("jan", 1), ("january", 1), ("feb", 2), ("february", 2), ("mar", 3), ("march", 3),
   ("apr", 4), ("april", 4), ("may", 5), ("jun", 6), ("june", 6), ("jul", 7), ("july", 7),
   ("aug", 8), ("august", 8), ("sep", 9), ("september", 9), ("oct", 10), ("october", 10),
   ("nov", 11), ("november", 11), ("dec", 12), ("december", 12)]

/-- `month_dict.get(month_str.lower(), now.month)`. -/
def monthLookup (w : String) (dflt : Nat) : Nat :=
  match monthDict.find? (fun p => p.1 = w) with
  | some p => p.2
  | none => dflt

/-- The 12-hour-to-24-hour conversion `simple_event_parser` applies to one
captured `(hour, minutes?, meridiem)` triple (`pm` and hour < 12 adds
12; minutes default to 0). -/
def hourMinOf (g : List Char × Option (List Char) × List Char) : Nat × Nat :=
  let hour0 := digitsToNat g.1 0
  let minute := match g.2.1 with | some md => digitsToNat md 0 | none => 0
  (if g.2.2 = "pm".data && hour0 < 12 then hour0 + 12 else hour0, minute)

/-- main_code.py `simple_event_parser` (lines 261-392), up to the
calendar-insert call. -/
def simpleEventParse (query : String) (now : PyDateTime) (credsOk : Bool) : CreateResult :=
  if !credsOk then
    CreateResult.error "❌ Google credentials not available. Unable to create calendar event."
  else
    let title : String :=
      match titleSplitAux query.data with
      | some pre => String.mk (pyStrip pre)
      | none => "New Event"
    let date0 : PyDate := ⟨now.year, now.month, now.day⟩
    let date1 : PyDate := if pyInLower "tomorrow" query then pyNextDay date0 else date0
    let date2 : PyDate :=
      match onDateSearch query.data with
      | some dm =>
        let day := digitsToNat dm.1 0
        let month := monthLookup (String.mk (pyLower dm.2)) now.month
        let year := if month < now.month then now.year + 1 else now.year
        (match mkDate year month day with
         | some dd => dd
         | none => date1)             -- ValueError: `except ... pass`
      | none => date1
    -- times: default 9:00-10:00, then `at <h>[:<mm>] am/pm`, then the range
    let t1 : Nat × Nat × Nat × Nat :=
      match atTimeSearch query.data with
      | some g => (hourMinOf g |>.1, hourMinOf g |>.2, (hourMinOf g).1 + 1, (hourMinOf g).2)
      | none => (9, 0, 10, 0)
    let t2 : Nat × Nat × Nat × Nat :=
      match fromRangeCISearch query.data with
      | some g =>
        ((hourMinOf g.1).1, (hourMinOf g.1).2, (hourMinOf g.2).1, (hourMinOf g.2).2)
      | none => t1
    let location : String :=
      match locSearch query.data with
      | some run =>
        if !containsSub "at".data (pyLower run) then String.mk (pyStrip run) else ""
      | none => ""
    -- datetime.min.time().replace(...) raises outside the field ranges
    if t2.1 > 23 then
      CreateResult.error "❌ Failed to create calendar event with fallback parser: hour must be in 0..23"
    else if t2.2.1 > 59 then
      CreateResult.error "❌ Failed to create calendar event with fallback parser: minute must be in 0..59"
    else if t2.2.2.1 > 23 then
      CreateResult.error "❌ Failed to create calendar event with fallback parser: hour must be in 0..23"
    else if t2.2.2.2 > 59 then
      CreateResult.error "❌ Failed to create calendar event with fallback parser: minute must be in 0..59"
    else
      CreateResult.draft
        ⟨title, pyCombine date2 t2.1 t2.2.1, pyCombine date2 t2.2.2.1 t2.2.2.2, location, ""⟩

/-- main_code.py `create_calendar_event` (lines 95-259): falls back to
`simple_event_parser` when the Groq client is unavailable or its JSON does
not parse. -/
def resolveEvent_mc (query : String) (llm : LlmParse) (now : PyDateTime)
    (credsOk : Bool) : CreateResult :=
  if !credsOk then
    CreateResult.error "❌ Google credentials not available. Unable to create calendar event."
  else
    match llm with
    | LlmParse.unavailable => simpleEventParse query now credsOk
    | LlmParse.badJson _ => simpleEventParse query now credsOk
    | LlmParse.raised e => CreateResult.error ("❌ Failed to create calendar event: " ++ e)
    | LlmParse.ok d => llmOkDraft query d

example :
    llmOkDraft "Schedule sync from 6 pm to 6 pm"
      ⟨"Sync", "2024-03-22", "18:00", some "19:00", "", [], ""⟩ =
    CreateResult.draft ⟨"Sync", ⟨2024, 3, 22, 18, 0⟩, ⟨2024, 3, 22, 18, 0⟩, "", ""⟩ := by decide
example :
    llmOkDraft "Schedule kickoff from 4 PM to 6 PM"
      ⟨"Kickoff", "2024-03-22", "17:00", some "17:00", "", [], ""⟩ =
    CreateResult.draft ⟨"Kickoff", ⟨2024, 3, 22, 17, 0⟩, ⟨2024, 3, 22, 18, 0⟩, "", ""⟩ := by decide
example :
    simpleEventParse "Team sync tomorrow at 2 PM" ⟨2024, 1, 1, 10, 0⟩ true =
    CreateResult.draft ⟨"Team sync", ⟨2024, 1, 2, 14, 0⟩, ⟨2024, 1, 2, 15, 0⟩, "2 PM", ""⟩ := by decide

/-! ## Listing events (list_calendar_events: agent_manager.py 254-328,
main_code.py 394-483) -/

/-- A calendar item as returned by the list collaborator: an all-day
`start.date` or a `start.dateTime`/`end.dateTime` pair, plus optional
summary and location. -/
inductive CalStart where
  | allDay (date : String)
  | at (dateTime : String)

structure CalEvent where
  start : CalStart
  endDateTime : String
  summary : Option String
  location : Option String

/-- Minutes of UTC offset from a trailing `+HH:MM`/`-HH:MM` (the code first
replaces `Z` by `+00:00`). -/
def parseOffset (cs : List Char) : Option (Int × List Char) :=
  match cs with
  | '+' :: h1 :: h2 :: ':' :: m1 :: m2 :: rest =>
    if isAsciiDigit h1 && isAsciiDigit h2 && isAsciiDigit m1 && isAsciiDigit m2 then
      some ((digitsToNat [h1, h2] 0 * 60 + digitsToNat [m1, m2] 0 : Nat), rest)
    else none
  | '-' :: h1 :: h2 :: ':' :: m1 :: m2 :: rest =>
    if isAsciiDigit h1 && isAsciiDigit h2 && isAsciiDigit m1 && isAsciiDigit m2 then
      some (-(digitsToNat [h1, h2] 0 * 60 + digitsToNat [m1, m2] 0 : Nat), rest)
    else none
  | _ => none

/-- Two mandatory digits. -/
def twoDigits (cs : List Char) : Option (Nat × List Char) :=
  match cs with
  | a :: b :: rest =>
    if isAsciiDigit a && isAsciiDigit b then some (digitsToNat [a, b] 0, rest) else none
  | _ => none

/-- `datetime.fromisoformat` on the `YYYY-MM-DDTHH:MM:SS±HH:MM` values the
calendar API returns (seconds forced to the model's whole-minute
granularity; the engine never renders seconds).  Returns the naive fields
and the offset in minutes. -/
def fromIso (s : String) : Option (PyDateTime × Int) :=
  (takeDigitsUpTo 4 s.data).bind fun y =>
  (expectChar '-' y.2).bind fun r1 =>
  (twoDigits r1).bind fun mo =>
  (expectChar '-' mo.2).bind fun r2 =>
  (twoDigits r2).bind fun d =>
  (expectChar 'T' d.2).bind fun r3 =>
  (twoDigits r3).bind fun h =>
  (expectChar ':' h.2).bind fun r4 =>
  (twoDigits r4).bind fun mi =>
  (expectChar ':' mi.2).bind fun r5 =>
  (twoDigits r5).bind fun _sec =>
  (parseOffset _sec.2).bind fun off =>
  if off.2 = [] then
    let t : PyDateTime := ⟨digitsToNat y.1 0, mo.1, d.1, h.1, mi.1⟩
    if validDT t then some (t, off.1) else none
  else none

/-- `datetime.fromisoformat` on a plain `YYYY-MM-DD` date. -/
def fromIsoDate (s : String) : Option PyDate :=
  (takeDigitsUpTo 4 s.data).bind fun y =>
  (expectChar '-' y.2).bind fun r1 =>
  (twoDigits r1).bind fun mo =>
  (expectChar '-' mo.2).bind fun r2 =>
  (twoDigits r2).bind fun d =>
  (mkDate (digitsToNat y.1 0) mo.1 d.1).bind fun dd =>
  if d.2 = [] then some dd else none

/-- `date - timedelta(days=1)` (one civil day back). -/
def pyPrevDay (d : PyDate) : PyDate :=
  if d.day > 1 then { d with day := d.day - 1 }
  else if d.month > 1 then { d with month := d.month - 1, day := daysInMonth d.year (d.month - 1) }
  else ⟨d.year - 1, 12, 31⟩

/-- Shift a datetime by `delta` minutes, `|delta| < 1440` (enough for any
timezone conversion). -/
def shiftMinutes (t : PyDateTime) (delta : Int) : PyDateTime :=
  let total : Int := (t.hour * 60 + t.minute : Nat) + delta
  if total < 0 then
    let d2 := pyPrevDay ⟨t.year, t.month, t.day⟩
    let m := (total + 1440).toNat
    ⟨d2.year, d2.month, d2.day, m / 60, m % 60⟩
  else if total ≥ 1440 then
    let d2 := pyNextDay ⟨t.year, t.month, t.day⟩
    let m := (total - 1440).toNat
    ⟨d2.year, d2.month, d2.day, m / 60, m % 60⟩
  else
    ⟨t.year, t.month, t.day, total.toNat / 60, total.toNat % 60⟩

/-- `.astimezone(pytz.timezone('Asia/Kolkata'))`: convert to UTC+5:30. -/
def toIst (t : PyDateTime) (offsetMin : Int) : PyDateTime :=
  shiftMinutes t (330 - offsetMin)

def monthAbbrev (m : Nat) : String :=
  match m with
  | 1 => "Jan" | 2 => "Feb" | 3 => "Mar" | 4 => "Apr" | 5 => "May" | 6 => "Jun"
  | 7 => "Jul" | 8 => "Aug" | 9 => "Sep" | 10 => "Oct" | 11 => "Nov" | 12 => "Dec"
  | _ => "?"

/-- Zero-pad to two digits. -/
def pad2 (n : Nat) : String := if n < 10 then "0" ++ toString n else toString n

/-- `%I:%M %p`. -/
def fmt12h (h m : Nat) : String :=
  let h12 := if h % 12 = 0 then 12 else h % 12
  pad2 h12 ++ ":" ++ pad2 m ++ " " ++ (if h < 12 then "AM" else "PM")

/-- `%b %d, %I:%M %p`. -/
def fmtMonthDayTime (t : PyDateTime) : String :=
  monthAbbrev t.month ++ " " ++ pad2 t.day ++ ", " ++ fmt12h t.hour t.minute

/-- The per-event lines appended by the listing loop (`none` models a
`ValueError` from `fromisoformat`, caught by the outer handler). -/
def renderEvent (ev : CalEvent) : Option (List String) :=
  (match ev.start with
   | CalStart.at s =>
     (fromIso s).bind fun (st : PyDateTime × Int) =>
     (fromIso ev.endDateTime).map fun (en : PyDateTime × Int) =>
       let stI := toIst st.1 st.2
       let enI := toIst en.1 en.2
       ["\nTime: " ++ fmtMonthDayTime stI ++ " - " ++ fmt12h enI.hour enI.minute]
   | CalStart.allDay d =>
     (fromIsoDate d).map fun (dd : PyDate) =>
       ["\nDate: " ++ monthAbbrev dd.month ++ " " ++ pad2 dd.day ++ " (All day)"]).map
    fun timeLines =>
      timeLines ++
      ["Event: " ++ ev.summary.getD "No Title"] ++
      (match ev.location with
       | some loc => ["Location: " ++ loc]
       | none => []) ++
      [String.mk (List.replicate 30 '-')]

/-- Render the whole event list. -/
def renderEvents : List CalEvent → Option (List String)
  | [] => some []
  | ev :: rest =>
    (renderEvent ev).bind fun ls =>
    (renderEvents rest).map fun more => ls ++ more

/-- `(\d+)\s+(?:upcoming\s+)?events` at the current position of the
lowercased query (main_code.py line 411), returning the digits group. -/
def numEventsAt (cs : List Char) : Option (List Char) :=
  match takeWhileSplit isAsciiDigit cs with
  | ([], _) => none
  | (ds, rest) =>
    (wsPlus rest).bind fun r2 =>
    match
      (dropLit "upcoming".data r2).bind fun r3 =>
      (wsPlus r3).bind fun r4 => dropLit "events".data r4 with
    | some _ => some ds
    | none => (dropLit "events".data r2).map fun _ => ds

/-- `re.search` of the count regex on the lowercased query. -/
def numEventsSearch (cs : List Char) : Option (List Char) := searchOptBy numEventsAt cs

/-- Python `int(...)` on a stripped string: optional sign then digits. -/
def pyIntStr (s : String) : Option Int :=
  match pyStrip s.data with
  | '-' :: ds => if ds ≠ [] && ds.all isAsciiDigit then some (-(digitsToNat ds 0 : Nat)) else none
  | '+' :: ds => if ds ≠ [] && ds.all isAsciiDigit then some ((digitsToNat ds 0 : Nat)) else none
  | ds => if ds ≠ [] && ds.all isAsciiDigit then some ((digitsToNat ds 0 : Nat)) else none

/-- The requested event count of main_code.py `list_calendar_events`
(lines 409-440): regex count, hard-coded special case, then the LLM
consulted for vague plurality, accepted only within [1, 50].  `.error`
models the completion call raising (there is no inner `try` around it). -/
def requestedCount_mc (query : String) (groqAvail : Bool)
    (countLlm : Except String String) : Except String Nat :=
  let numMatch := numEventsSearch (pyLower query.data)
  let n0 : Nat :=
    match numMatch with
    | some ds => digitsToNat ds 0
    | none => 10
  let n1 : Nat :=
    if pyInLower "my 2 upcoming events" query || pyInLower "list my 2 upcoming events" query then 2
    else n0
  if pyInLower "next few" query || (pyInLower "upcoming" query && numMatch = none) then
    if groqAvail then
      match countLlm with
      | Except.error e => Except.error e
      | Except.ok content =>
        (match pyIntStr content with
         | some k => if 1 ≤ k ∧ k ≤ 50 then Except.ok k.toNat else Except.ok n1
         | none => Except.ok n1)
    else Except.ok n1
  else Except.ok n1

/-- The time horizon of main_code.py `list_calendar_events`
(lines 442-449). -/
def horizonDays_mc (query : String) : Nat :=
  if pyInLower "this week" query then 7
  else if pyInLower "this month" query then 30
  else if pyInLower "today" query then 1
  else 30

/-- main_code.py `list_calendar_events` (lines 394-483).  `svc n days` is
the calendar-list collaborator call with `maxResults = n` and a `days`-day
window (`.error` = raised API exception). -/
def listEvents_mc (query : String) (groqAvail : Bool) (countLlm : Except String String)
    (svc : Nat → Nat → Except String (List CalEvent)) (credsOk : Bool) : String :=
  if !credsOk then "❌ Google credentials not available. Unable to list calendar events."
  else
    match requestedCount_mc query groqAvail countLlm with
    | Except.error e => "❌ Failed to list calendar events: " ++ e
    | Except.ok n =>
      match svc n (horizonDays_mc query) with
      | Except.error e => "❌ Failed to list calendar events: " ++ e
      | Except.ok events =>
        match renderEvents events with
        | none => "❌ Failed to list calendar events: Invalid isoformat string"
        | some eventLines =>
          let output :=
            ["\nUpcoming " ++ toString n ++ " Events:", String.mk (List.replicate 30 '-')] ++
            eventLines ++
            (if events.isEmpty then ["\nNo upcoming events found."] else [])
          String.intercalate "\n" output

/-- agent_manager.py `list_calendar_events` (lines 254-328): the count
always comes from the LLM (default 10 when its answer is not an `int`);
the horizon is a fixed 30 days.  The count can be any integer the LLM
returns, including a negative one. -/
def listEvents_am (_query : String) (groqAvail : Bool) (countLlm : Except String String)
    (svc : Int → Except String (List CalEvent)) : String :=
  if !groqAvail then "❌ Error initializing Groq client. Please check your API key."
  else
    match countLlm with
    | Except.error e => "❌ Failed to list calendar events: " ++ e
    | Except.ok content =>
      let n : Int := (pyIntStr content).getD 10
      match svc n with
      | Except.error e => "❌ Failed to list calendar events: " ++ e
      | Except.ok events =>
        match renderEvents events with
        | none => "❌ Failed to list calendar events: Invalid isoformat string"
        | some eventLines =>
          let output :=
            ["\nUpcoming " ++ toString n ++ " Events:", String.mk (List.replicate 30 '-')] ++
            eventLines ++
            (if events.isEmpty then ["\nNo upcoming events found."] else [])
          String.intercalate "\n" output

example : requestedCount_mc "show my next 5 events" true (Except.ok "ignored") =
    Except.ok 5 := rfl
example : requestedCount_mc "show my upcoming events" true (Except.ok "3") =
    Except.ok 3 := rfl
example : requestedCount_mc "list events" true (Except.ok "3") = Except.ok 10 := rfl
example :
    renderEvent ⟨CalStart.at "2024-01-05T10:00:00+00:00", "2024-01-05T11:00:00+00:00",
      some "Standup", none⟩ =
    some ["\nTime: Jan 05, 03:30 PM - 04:30 PM", "Event: Standup",
      String.mk (List.replicate 30 '-')] := rfl

/-! ## Sending email (send_email: agent_manager.py 353-516, main_code.py
2254-2325, agent_managerr.py 253-305)

The subject/body templating helpers (`generate_subject`,
`generate_email_content`, `generate_template_email`) are pure string
functions invoked only after a recipient was extracted; their computed
values enter the models as the `subject`/`body` arguments.  `profile` and
`sendRes` are the Gmail `getProfile` and `send` collaborator calls. -/

/-- Result of a send flow, with the collaborator-call trace the claims
talk about. -/
structure SendOut where
  response : String
  profileCalled : Bool
  sendCalled : Bool
deriving DecidableEq

/-- `re.search(r'(?:to|send to|email to)\s+([a-zA-Z0-9\s]+)', q, re.IGNORECASE)`
of agent_manager.py line 377, returning group 1. -/
def toNameAt (cs : List Char) : Option (List Char) :=
  pickFirst
    (fun kw =>
      (dropLitCI kw cs).bind fun r =>
      (wsPlus r).bind fun r2 =>
      match takeWhileSplit (fun c => isAsciiAlpha c || isAsciiDigit c || isPyWs c) r2 with
      | ([], _) => none
      | (run, _) => some run)
    ["to".data, "send to".data, "email to".data]

/-- `re.search` of the recipient-name regex. -/
def toNameSearch (cs : List Char) : Option (List Char) := searchOptBy toNameAt cs

/-- The `✅ Email sent successfully!` response shared by the variants. -/
def sentOkMsg (recipient subject body : String) : String :=
  "✅ Email sent successfully!\nTo: " ++ recipient ++ "\nSubject: " ++ subject ++
  "\nMessage:\n" ++ body

/-- agent_manager.py `send_email` (lines 353-516).  `buildErr` models a
raised credential/service construction error (outer `except`). -/
def sendEmail_am (q : String) (buildErr : Option String) (subject body : String)
    (profile sendRes : Except String String) : SendOut :=
  match buildErr with
  | some e => ⟨"❌ Failed to send email: " ++ e, false, false⟩
  | none =>
    match emailSearch q with
    | none =>
      (match toNameSearch q.data with
       | some run =>
         ⟨"❌ Could not find a valid email address for '" ++ String.mk (pyStrip run) ++
           "'. Please include a complete email address.", false, false⟩
       | none =>
         ⟨"❌ No email address found in the query! Please include a valid email address.",
           false, false⟩)
    | some recipient =>
      match profile with
      | Except.error e => ⟨"❌ Email sending failed: " ++ e, true, false⟩
      | Except.ok _ =>
        match sendRes with
        | Except.error e => ⟨"❌ Email sending failed: " ++ e, true, true⟩
        | Except.ok _ => ⟨sentOkMsg recipient subject body, true, true⟩

/-- main_code.py `send_email` (lines 2254-2325): credentials first, then
recipient extraction (before the Gmail service is even built), then
profile and send. -/
def sendEmail_mc (q : String) (credsOk : Bool) (buildErr : Option String)
    (subject body : String) (profile sendRes : Except String String) : SendOut :=
  if !credsOk then
    ⟨"❌ Google credentials not available. Unable to send email.", false, false⟩
  else
    match emailSearch q with
    | none =>
      ⟨"❌ No email address found in the query! Please include a valid email address.",
        false, false⟩
    | some recipient =>
      match buildErr with
      | some e => ⟨"❌ Failed to process email request: " ++ e, false, false⟩
      | none =>
        match profile with
        | Except.error e => ⟨"❌ Email sending failed: " ++ e, true, false⟩
        | Except.ok _ =>
          match sendRes with
          | Except.error e => ⟨"❌ Email sending failed: " ++ e, true, true⟩
          | Except.ok _ => ⟨sentOkMsg recipient subject body, true, true⟩

/-- Replace every occurrence of `pat` (non-empty) in `s`. -/
def replaceAllSub (pat rep : List Char) : Nat → List Char → List Char
  | 0, s => s
  | _, [] => []
  | fuel + 1, c :: rest =>
    match dropLit pat (c :: rest) with
    | some after =>
      if pat.isEmpty then c :: rest else rep ++ replaceAllSub pat rep fuel after
    | none => c :: replaceAllSub pat rep fuel rest

/-- Python `s.replace(pat, rep)`. -/
def pyReplace (s pat rep : String) : String :=
  String.mk (replaceAllSub pat.data rep.data s.data.length s.data)

/-- agent_managerr.py `send_email` (lines 253-305): no exception handling
around the service build or the LLM call, so those failures propagate
(outer `.error`); only the profile/send step has a `try`. -/
def sendEmail_rr (q : String) (buildErr : Option String) (llm : Except String String)
    (profile sendRes : Except String String) : Except String SendOut :=
  match buildErr with
  | some e => Except.error e
  | none =>
    match emailSearch q with
    | none => Except.ok ⟨"❌ No email address found in the query!", false, false⟩
    | some recipient =>
      match llm with
      | Except.error e => Except.error e
      | Except.ok raw =>
        let content := String.mk (pyStrip raw.data)
        let ls := content.splitOn "\n"
        let subject := String.mk (pyStrip (pyReplace (ls.headD "") "SUBJECT:" "").data)
        let body := String.mk (pyStrip (String.intercalate "\n" ls.tail).data)
        match profile with
        | Except.error e => Except.ok ⟨"❌ Email sending failed: " ++ e, true, false⟩
        | Except.ok _ =>
          match sendRes with
          | Except.error e => Except.ok ⟨"❌ Email sending failed: " ++ e, true, true⟩
          | Except.ok _ => Except.ok ⟨sentOkMsg recipient subject body, true, true⟩

example :
    sendEmail_mc "send an email to john about the project" true none "s" "b"
      (Except.ok "me@x.com") (Except.ok "id") =
    ⟨"❌ No email address found in the query! Please include a valid email address.",
      false, false⟩ := rfl
example :
    (sendEmail_am "send an email to john about the project" none "s" "b"
      (Except.ok "me@x.com") (Except.ok "id")).response =
    "❌ Could not find a valid email address for 'john about the project'. Please include a complete email address." := rfl

/-! ## Workflow (execute_tools and agent_manager: agent_manager.py
585-669, main_code.py 2404-2467, agent_managerr.py 333-370) -/

/-- The three action handlers as the executor sees them: each returns the
handler's response string or models a raised exception with `.error`.
(The am/mc handlers modelled above are total — every internal failure is
already a returned string — so quantifying over arbitrary `Handlers`
covers them and any collaborator behaviour.) -/
structure Handlers where
  create : String → Except String String
  list : String → Except String String
  email : String → Except String String

/-- One pass of the `for action in state["actions"]` loop of
agent_manager.py/main_code.py `execute_tools`: each handler call sits in
its own `try`, unknown actions produce a message. -/
def executeActions (q : String) (h : Handlers) : List String → List String
  | [] => []
  | a :: rest =>
    (if a = "calendar_create" then
      match h.create q with
      | Except.ok s => s
      | Except.error e => "❌ Error executing calendar_create: " ++ e
    else if a = "calendar_list" then
      match h.list q with
      | Except.ok s => s
      | Except.error e => "❌ Error executing calendar_list: " ++ e
    else if a = "email" then
      match h.email q with
      | Except.ok s => s
      | Except.error e => "❌ Error executing email: " ++ e
    else "Unknown action: " ++ a) :: executeActions q h rest

/-- `execute_tools` of agent_manager.py (585-625) and main_code.py
(2404-2434): returns the `final_response` it writes, or propagates the
`TypeError` of iterating a non-iterable actions value. -/
def executeTools (q : String) (h : Handlers) (actions : Except String (List String)) :
    Except String String :=
  match actions with
  | Except.error e => Except.error e
  | Except.ok [] =>
    Except.ok "No specific actions were identified from your request. Please try again with a clearer request."
  | Except.ok acts =>
    let rs := executeActions q h acts
    Except.ok (if rs.isEmpty then "I couldn't process your request. Please try again."
      else String.intercalate "\n\n" rs)

/-- The route-then-execute pipeline (`graph.invoke`) of main_code.py. -/
def pipeline_mc (q : String) (groqAvail : Bool) (llm : Except String String)
    (h : Handlers) : Except String String :=
  executeTools q h (routeQuery_mc q groqAvail llm).actions

/-- The route-then-execute pipeline of agent_manager.py. -/
def pipeline_am (q : String) (groqAvail : Bool) (llm : Except String String)
    (h : Handlers) : Except String String :=
  executeTools q h (routeQuery_am q groqAvail llm).actions

/-- main_code.py `agent_manager` (lines 2436-2467): the whole invocation
sits in `try/except`, and an empty final response becomes an apology. -/
def agentManager_mc (q : String) (groqAvail : Bool) (llm : Except String String)
    (h : Handlers) : String :=
  match pipeline_mc q groqAvail llm h with
  | Except.ok fr =>
    if fr ≠ "" then fr else "Sorry, I couldn't generate a response for your request."
  | Except.error e => "Error processing your request: " ++ e

/-- agent_manager.py `agent_manager` (lines 627-669). -/
def agentManager_am (q : String) (groqAvail : Bool) (llm : Except String String)
    (h : Handlers) : String :=
  match pipeline_am q groqAvail llm h with
  | Except.ok fr =>
    if fr ≠ "" then fr else "Sorry, I couldn't generate a response for your request."
  | Except.error e => "Error processing your request: " ++ e

/-- agent_managerr.py `execute_tools` (lines 333-345): no per-action
`try`, no unknown-action branch (such actions are silently skipped); a
handler exception propagates. -/
def executeActions_rr (q : String) (h : Handlers) : List String → Except String (List String)
  | [] => Except.ok []
  | a :: rest =>
    if a = "calendar_create" then
      match h.create q with
      | Except.error e => Except.error e
      | Except.ok s => (executeActions_rr q h rest).map (s :: ·)
    else if a = "calendar_list" then
      match h.list q with
      | Except.error e => Except.error e
      | Except.ok s => (executeActions_rr q h rest).map (s :: ·)
    else if a = "email" then
      match h.email q with
      | Except.error e => Except.error e
      | Except.ok s => (executeActions_rr q h rest).map (s :: ·)
    else executeActions_rr q h rest

/-- agent_managerr.py `agent_manager` (lines 347-370): `graph.invoke` with
no `try/except` anywhere — routing or execution exceptions reach the
caller (`.error`). -/
def agentManager_rr (q : String) (llm : Except String String) (h : Handlers) :
    Except String String :=
  match routeQuery_rr llm with
  | Except.error e => Except.error e
  | Except.ok inner =>
    match inner with
    | Except.error e => Except.error e
    | Except.ok acts =>
      (executeActions_rr q h acts).map (String.intercalate "\n\n")

example :
    agentManager_rr "hello" (Except.error "connection refused")
      ⟨fun _ => Except.ok "", fun _ => Except.ok "", fun _ => Except.ok ""⟩ =
    Except.error "connection refused" := rfl
example :
    agentManager_mc "hello" true (Except.error "connection refused")
      ⟨fun _ => Except.error "x", fun _ => Except.error "y", fun _ => Except.error "z"⟩ =
    "❌ Error executing calendar_list: y" := rfl

/-! ## Supporting lemmas -/

/-- `strptimeDT` only returns datetimes within `datetime`'s field bounds. -/
theorem strptimeDT_valid (s : String) (t : PyDateTime)
    (h : strptimeDT s = some t) : validDT t = true := by
  unfold strptimeDT at h
  simp only [Option.bind_eq_some] at h
  obtain ⟨y, _, r1, _, mo, _, r2, _, d, _, r3, _, hh, _, r4, _, mi, _, r5, _, sec, _, h⟩ := h
  split at h
  · split at h
    · exact Option.some.inj h ▸ (by assumption)
    · exact absurd h (by simp)
  · exact absurd h (by simp)

theorem daysInMonth_le_31 (y m : Nat) : daysInMonth y m ≤ 31 := by
  unfold daysInMonth
  split
  · split <;> omega
  · split <;> omega

/-- Adding the default one-hour duration moves a valid datetime strictly
forward. -/
theorem dtLt_pyAddOneHour (t : PyDateTime) (h : validDT t = true) :
    dtLt t (pyAddOneHour t) = true := by
  unfold validDT at h
  simp only [Bool.and_eq_true, decide_eq_true_eq] at h
  obtain ⟨⟨⟨⟨⟨⟨⟨hy1, hy2⟩, hm1⟩, hm2⟩, hd1⟩, hd2⟩, hh⟩, hmin⟩ := h
  have hdim : daysInMonth t.year t.month ≤ 31 := daysInMonth_le_31 _ _
  unfold pyAddOneHour dtLt dtKey
  split
  · simp only [decide_eq_true_eq]; omega
  · split
    · simp only [decide_eq_true_eq]; omega
    · split
      · simp only [decide_eq_true_eq]; omega
      · simp only [decide_eq_true_eq]; omega

/-- `listStartsWith` is exactly the prefix relation. -/
theorem listStartsWith_iff (pat s : List Char) :
    listStartsWith pat s = true ↔ pat <+: s := by
  induction pat generalizing s with
  | nil => simp [listStartsWith]
  | cons p ps ih =>
    cases s with
    | nil => simp [listStartsWith]
    | cons c cs => simp [listStartsWith, ih, List.cons_prefix_cons]

/-- `containsSub` is exactly the infix relation. -/
theorem containsSub_occurs_iff (pat s : List Char) :
    containsSub pat s = true ↔ pat <:+: s := by
  induction s with
  | nil =>
    unfold containsSub
    rw [listStartsWith_iff]
    simp
  | cons c rest ih =>
    unfold containsSub
    rw [Bool.or_eq_true, listStartsWith_iff, ih, List.infix_cons_iff]

/-- If `big` occurs in `s` and `small` occurs in `big`, then `small`
occurs in `s`. -/
theorem containsSub_trans (small big s : List Char)
    (h1 : containsSub small big = true) (h2 : containsSub big s = true) :
    containsSub small s = true := by
  rw [containsSub_occurs_iff] at h1 h2 ⊢
  exact h1.trans h2

/-! ## Claim theorems -/

/-- C3 (amended): for every query containing a syntactically valid email
address, agent_manager.py's `route_query` returns exactly `["email"]`
from its top-priority address rule, with no LLM call — even when
creation/listing keywords are also present. -/
theorem claim_C3_am_email_priority (q : String) (groqAvail : Bool)
    (llm : Except String String) (h : containsEmail q = true) :
    routeQuery_am q groqAvail llm = ⟨Except.ok ["email"], false, none⟩ := by
  simp [routeQuery_am, h]

/-- Witness for C3: a concrete query with an address and a creation
keyword. -/
theorem claim_C3_witness :
    routeQuery_am "schedule a chat with j.doe@example.org" true (Except.ok "") =
      ⟨Except.ok ["email"], false, none⟩ :=
  claim_C3_am_email_priority _ true _ (by rfl)

/-- C3 counterexample: main_code.py's `route_query` (also cited by the
claim) has no top-priority address rule — its creation-keyword stage runs
first, so a query containing both "schedule" and a valid address routes to
`["calendar_create"]`, not `["email"]`. -/
theorem claim_C3_counterexample :
    containsEmail "schedule sync with a@b.com" = true ∧
    routeQuery_mc "schedule sync with a@b.com" true (Except.ok "") =
      ⟨Except.ok ["calendar_create"], false, none⟩ :=
  ⟨rfl, rfl⟩

/-- C4 (amended): for every query containing "schedule" (and no email
address), main_code.py's `route_query` answers `["calendar_create"]` from
its keyword stage alone, never invoking the LLM. -/
theorem claim_C4_mc_schedule_keyword (q : String) (groqAvail : Bool)
    (llm : Except String String) (h : pyInLower "schedule" q = true)
    (_hmail : containsEmail q = false) :
    routeQuery_mc q groqAvail llm = ⟨Except.ok ["calendar_create"], false, none⟩ := by
  simp [routeQuery_mc, h]

/-- Witness for C4. -/
theorem claim_C4_witness :
    routeQuery_mc "schedule a meeting" false (Except.error "down") =
      ⟨Except.ok ["calendar_create"], false, none⟩ :=
  claim_C4_mc_schedule_keyword _ false _ (by rfl) (by rfl)

/-- C4 counterexample: agent_manager.py's `route_query` (also cited by the
claim) has no calendar keyword stage: on "schedule a meeting" (no email
address) it invokes the LLM and returns whatever the LLM answers — here
`["calendar_list"]` with `llmInvoked = true`. -/
theorem claim_C4_counterexample :
    pyInLower "schedule" "schedule a meeting" = true ∧
    containsEmail "schedule a meeting" = false ∧
    routeQuery_am "schedule a meeting" true
        (Except.ok "\x7b\"agents\": [\"calendar_list\"]\x7d") =
      ⟨Except.ok ["calendar_list"], true, none⟩ :=
  ⟨rfl, rfl, rfl⟩

/-- Without a "pm" substring in the query the range override cannot fire. -/
theorem rangeOverride_of_no_pm (q : String) (sd z : PyDateTime)
    (hpm : pyInLower "pm" q = false) : rangeOverride q sd z = z := by
  unfold rangeOverride
  simp [hpm]

/-- The range override is inert when the range regex does not match. -/
theorem rangeOverride_of_no_match (q : String) (sd z : PyDateTime)
    (hno : fromToSearch (pyLower q.data) = none) : rangeOverride q sd z = z := by
  unfold rangeOverride
  rw [hno]
  simp

/-- The sanity-corrected default end time is strictly after a valid
start. -/
theorem dtLt_defaultEnd (d : EventDetails) (sd : PyDateTime)
    (hvalid : validDT sd = true) : dtLt sd (defaultEnd d sd) = true := by
  unfold defaultEnd
  cases hcase : d.end_time with
  | none => exact dtLt_pyAddOneHour sd hvalid
  | some et =>
    simp only []
    split
    · cases het2 : strptimeDT (d.date ++ "T" ++ et ++ ":00") with
      | none => exact dtLt_pyAddOneHour sd hvalid
      | some ed =>
        simp only []
        by_cases hle : dtLe ed sd = true
        · rw [if_pos hle]
          exact dtLt_pyAddOneHour sd hvalid
        · rw [if_neg hle]
          simp only [dtLe, decide_eq_true_eq] at hle
          simp only [dtLt, decide_eq_true_eq]
          omega
    · exact dtLt_pyAddOneHour sd hvalid

/-- When the LLM reported no usable end time (absent, empty, or equal to
the start), the default is exactly start + 1 hour. -/
theorem defaultEnd_of_unspecified (d : EventDetails) (sd : PyDateTime)
    (h : d.end_time = none ∨ d.end_time = some "" ∨ d.end_time = some d.start_time) :
    defaultEnd d sd = pyAddOneHour sd := by
  unfold defaultEnd
  rcases h with h | h | h
  · rw [h]
  · rw [h]
    simp only []
    rw [if_neg (by simp)]
  · rw [h]
    simp only []
    rw [if_neg (by simp)]

/-- C1 (amended): on the LLM path of `create_calendar_event`, whenever the
range override does not fire — the query lacks a "pm" substring, or the
"from X to Y" range regex finds no match in it — the finalized draft's
end time is strictly after its start time: either the LLM's own later end
time or the start + 1 hour sanity default.  The sanity correction runs
before the range override, not last. -/
theorem claim_C1_end_after_start_no_override (q : String) (d : EventDetails)
    (e : EventDraft)
    (hinert : pyInLower "pm" q = false ∨ fromToSearch (pyLower q.data) = none)
    (h : llmOkDraft q d = CreateResult.draft e) :
    dtLt e.startDT e.endDT = true := by
  unfold llmOkDraft at h
  cases hs : strptimeDT (d.date ++ "T" ++ d.start_time ++ ":00") with
  | none => rw [hs] at h; cases h
  | some sd =>
    rw [hs] at h
    simp only [] at h
    cases h
    have hro : rangeOverride q sd (defaultEnd d sd) = defaultEnd d sd := by
      rcases hinert with hpm | hno
      · exact rangeOverride_of_no_pm _ _ _ hpm
      · exact rangeOverride_of_no_match _ _ _ hno
    simp only [hro]
    exact dtLt_defaultEnd d sd (strptimeDT_valid _ _ hs)

/-- Witness for C1: both inertness cases at concrete inputs — a query
without "pm", and "Schedule sync at 6 pm", which contains "pm" but
matches no from-to range. -/
theorem claim_C1_witness :
    dtLt (⟨2024, 3, 22, 14, 0⟩ : PyDateTime) ⟨2024, 3, 22, 15, 0⟩ = true ∧
    dtLt (⟨2024, 3, 22, 18, 0⟩ : PyDateTime) ⟨2024, 3, 22, 19, 0⟩ = true :=
  ⟨claim_C1_end_after_start_no_override "Team sync"
      ⟨"Sync", "2024-03-22", "14:00", none, "", [], ""⟩
      ⟨"Sync", ⟨2024, 3, 22, 14, 0⟩, ⟨2024, 3, 22, 15, 0⟩, "", ""⟩
      (Or.inl (by rfl)) (by rfl),
   claim_C1_end_after_start_no_override "Schedule sync at 6 pm"
      ⟨"Sync", "2024-03-22", "18:00", none, "", [], ""⟩
      ⟨"Sync", ⟨2024, 3, 22, 18, 0⟩, ⟨2024, 3, 22, 19, 0⟩, "", ""⟩
      (Or.inr (by rfl)) (by rfl)⟩

/-- C1 counterexample: the range override runs after the sanity
correction and can finalize a draft whose end time equals its start time:
query "Schedule sync from 6 pm to 6 pm" with a well-formed LLM record
(end 19:00 > start 18:00) yields endTime = startTime = 18:00. -/
theorem claim_C1_counterexample :
    resolveEvent_mc "Schedule sync from 6 pm to 6 pm"
        (LlmParse.ok ⟨"Sync", "2024-03-22", "18:00", some "19:00", "", [], ""⟩)
        ⟨2024, 3, 22, 10, 0⟩ true =
      CreateResult.draft ⟨"Sync", ⟨2024, 3, 22, 18, 0⟩, ⟨2024, 3, 22, 18, 0⟩, "", ""⟩ ∧
    dtLt (⟨2024, 3, 22, 18, 0⟩ : PyDateTime) ⟨2024, 3, 22, 18, 0⟩ = false :=
  ⟨rfl, rfl⟩

/-- C2 (amended): for the range query "Schedule kickoff from 4 PM to 6 PM",
whatever `end_time` the LLM stage returned, the range override recomputes
only the end time from the matched text — the finalized draft has
endTime = 18:00 (minutes zeroed, on the start date) while startTime keeps
the LLM's value (`start_hr` is parsed from the text but never used). -/
theorem claim_C2_range_override_end_only (d : EventDetails) (sd : PyDateTime)
    (hs : strptimeDT (d.date ++ "T" ++ d.start_time ++ ":00") = some sd) :
    llmOkDraft "Schedule kickoff from 4 PM to 6 PM" d =
      CreateResult.draft
        ⟨d.summary, sd, ⟨sd.year, sd.month, sd.day, 18, 0⟩, d.location,
          if d.attendees ≠ [] then
            d.description ++ "\n\nAttendees: " ++ String.intercalate ", " d.attendees
          else d.description⟩ := by
  unfold llmOkDraft
  rw [hs]
  rfl

/-- Witness for C2. -/
theorem claim_C2_witness :
    llmOkDraft "Schedule kickoff from 4 PM to 6 PM"
        ⟨"Kickoff", "2024-03-22", "16:00", some "17:00", "", [], ""⟩ =
      CreateResult.draft
        ⟨"Kickoff", ⟨2024, 3, 22, 16, 0⟩, ⟨2024, 3, 22, 18, 0⟩, "", ""⟩ :=
  claim_C2_range_override_end_only
    ⟨"Kickoff", "2024-03-22", "16:00", some "17:00", "", [], ""⟩
    ⟨2024, 3, 22, 16, 0⟩ (by rfl)

/-- C2 counterexample: when the LLM wrongly returns start_time 17:00 for
"…from 4 PM to 6 PM", the finalized draft keeps startTime = 17:00 — the
claim's "startTime = 16:00 … recomputed directly from the matched text"
fails; only the end time (18:00) is recomputed. -/
theorem claim_C2_counterexample :
    llmOkDraft "Schedule kickoff from 4 PM to 6 PM"
        ⟨"Kickoff", "2024-03-22", "17:00", some "17:00", "", [], ""⟩ =
      CreateResult.draft
        ⟨"Kickoff", ⟨2024, 3, 22, 17, 0⟩, ⟨2024, 3, 22, 18, 0⟩, "", ""⟩ ∧
    (⟨2024, 3, 22, 17, 0⟩ : PyDateTime) ≠ ⟨2024, 3, 22, 16, 0⟩ :=
  ⟨rfl, by decide⟩

/-- C5 (amended): in main_code.py's create flow, an unavailable LLM client
and an unparsable extraction response both route to the heuristic
fallback parser `simple_event_parser` on the same query (which returns its
best-effort result — nothing is raised past the component); agent_manager.py's
flow, by contrast, returns an error string directly (see the
counterexample). -/
theorem claim_C5_mc_fallback_on_llm_failure :
    ∀ (q : String) (now : PyDateTime) (credsOk : Bool) (emsg : String),
      resolveEvent_mc q LlmParse.unavailable now credsOk = simpleEventParse q now credsOk ∧
      resolveEvent_mc q (LlmParse.badJson emsg) now credsOk = simpleEventParse q now credsOk := by
  intro q now credsOk emsg
  cases credsOk <;> exact ⟨rfl, rfl⟩

/-- C5 counterexample: agent_manager.py's `create_calendar_event` (cited
by the claim) returns a parse-failure error string to its caller instead
of running any heuristic fallback. -/
theorem claim_C5_counterexample :
    resolveEvent_am "Schedule team orientation tomorrow"
        (LlmParse.badJson "Expecting value: line 1 column 1 (char 0)") =
      CreateResult.error
        "❌ Failed to parse event details: Expecting value: line 1 column 1 (char 0)" :=
  rfl

/-- C8 (confirmed): whenever a start time is resolved but no explicit end
time is given, the finalized draft's end is exactly start + 1 hour: (a) on
the LLM path, when the LLM reports no usable end time (absent/empty/equal
to start) and the query has no "from X to Y" range, the end is the
one-hour default; (b) in the fallback parser, an `at <time>` query with no
range yields end = start + 60 minutes. -/
theorem claim_C8_default_duration_one_hour :
    (∀ (q : String) (d : EventDetails) (sd : PyDateTime),
      strptimeDT (d.date ++ "T" ++ d.start_time ++ ":00") = some sd →
      (d.end_time = none ∨ d.end_time = some "" ∨ d.end_time = some d.start_time) →
      fromToSearch (pyLower q.data) = none →
      llmOkDraft q d =
        CreateResult.draft
          ⟨d.summary, sd, pyAddOneHour sd, d.location,
            if d.attendees ≠ [] then
              d.description ++ "\n\nAttendees: " ++ String.intercalate ", " d.attendees
            else d.description⟩) ∧
    (∀ (q : String) (now : PyDateTime) (e : EventDraft)
      (g : List Char × Option (List Char) × List Char),
      atTimeSearch q.data = some g →
      fromRangeCISearch q.data = none →
      simpleEventParse q now true = CreateResult.draft e →
      dtKey e.endDT = dtKey e.startDT + 60) := by
  constructor
  · intro q d sd hs hend hno
    unfold llmOkDraft
    rw [hs]
    simp only []
    rw [defaultEnd_of_unspecified d sd hend, rangeOverride_of_no_match q sd _ hno]
  · intro q now e g hat hno h
    unfold simpleEventParse at h
    rw [hat, hno] at h
    simp only [Bool.not_true, if_false] at h
    split at h
    · cases h
    · split at h
      · cases h
      · split at h
        · cases h
        · split at h
          · cases h
          · cases h
            simp only [pyCombine, dtKey]
            omega

/-- Witness for C8: both conjuncts at concrete inputs. -/
theorem claim_C8_witness :
    llmOkDraft "Team sync" ⟨"Sync", "2024-03-22", "14:00", none, "", [], ""⟩ =
      CreateResult.draft ⟨"Sync", ⟨2024, 3, 22, 14, 0⟩, ⟨2024, 3, 22, 15, 0⟩, "", ""⟩ ∧
    dtKey (⟨2024, 1, 2, 15, 0⟩ : PyDateTime) = dtKey (⟨2024, 1, 2, 14, 0⟩ : PyDateTime) + 60 :=
  ⟨claim_C8_default_duration_one_hour.1 "Team sync"
      ⟨"Sync", "2024-03-22", "14:00", none, "", [], ""⟩ ⟨2024, 3, 22, 14, 0⟩
      (by rfl) (Or.inl rfl) (by rfl),
   claim_C8_default_duration_one_hour.2 "Team sync tomorrow at 2 PM" ⟨2024, 1, 1, 10, 0⟩
      ⟨"Team sync", ⟨2024, 1, 2, 14, 0⟩, ⟨2024, 1, 2, 15, 0⟩, "2 PM", ""⟩
      ("2".data, none, "pm".data) (by rfl) (by rfl) (by rfl)⟩

/-- On unparsable text carrying an `"agents":` marker, `safe_json_parse`
(main_code.py) returns the re-parsed regex-salvaged fragment wrapped as an
agents object. -/
theorem safeJsonParse_mc_salvage (content frag : String) (xs : List JVal)
    (d : Option JVal) (hp : jsonParse content = none)
    (hin : pyIn "\"agents\":" content = true)
    (hf : agentsFrag content = some frag)
    (hx : jsonParse frag = some (JVal.jarr xs)) :
    safeJsonParse_mc content d = JVal.jobj [("agents", JVal.jarr xs)] := by
  have hne : content ≠ "" := by
    intro hc
    rw [hc] at hin
    cases hin
  unfold safeJsonParse_mc
  rw [if_neg hne, hp]
  simp only []
  unfold salvage_mc
  rw [if_pos hin, hf]
  simp only []
  rw [hx]
  rfl

/-- On unparsable text where salvage also fails, `safe_json_parse`
(main_code.py) returns the supplied default. -/
theorem safeJsonParse_mc_default (content : String) (d : JVal)
    (hp : jsonParse content = none) (hs : salvage_mc content = none) :
    safeJsonParse_mc content (some d) = d := by
  by_cases hne : content = ""
  · rw [hne]
    rfl
  · unfold safeJsonParse_mc
    rw [if_neg hne, hp]
    simp only []
    rw [hs]
    rfl

/-- "ping zz" reaches no keyword or regex routing stage, so with an
available client the route is decided by the parsed LLM response. -/
theorem routeQuery_mc_llm_stage (content : String) :
    routeQuery_mc "ping zz" true (Except.ok content) =
      match safeJsonParse_mc content (some agentsDefault) with
      | JVal.jobj fs =>
        (match lookupField fs "agents" with
         | some v => ⟨agentsToActions v, true, none⟩
         | none => ⟨Except.ok ["calendar_list"], true, none⟩)
      | _ => keywordGuess_mc "ping zz" true := rfl

/-- C7 (amended): in main_code.py's router, an unparsable LLM routing
response is first salvaged by regex — an `"agents": [...]` fragment is
re-parsed and its entries become the routed actions — and when salvage
fails too, the routed action list defaults to exactly `["calendar_list"]`
(shown on the concrete LLM-routed query "ping zz"); agent_manager.py's
variant never attempts the any-bracketed-array salvage (see the
counterexample). -/
theorem claim_C7_salvage_then_default :
    (∀ (content frag : String) (xs : List JVal),
      jsonParse content = none →
      pyIn "\"agents\":" content = true →
      agentsFrag content = some frag →
      jsonParse frag = some (JVal.jarr xs) →
      routeQuery_mc "ping zz" true (Except.ok content) =
        ⟨Except.ok (xs.map jvalToActionName), true, none⟩) ∧
    (∀ content : String,
      jsonParse content = none →
      salvage_mc content = none →
      routeQuery_mc "ping zz" true (Except.ok content) =
        ⟨Except.ok ["calendar_list"], true, none⟩) := by
  constructor
  · intro content frag xs hp hin hf hx
    rw [routeQuery_mc_llm_stage,
      safeJsonParse_mc_salvage content frag xs _ hp hin hf hx]
    rfl
  · intro content hp hs
    rw [routeQuery_mc_llm_stage, safeJsonParse_mc_default content _ hp hs]
    rfl

/-- Witness for C7: a salvageable response and an unsalvageable one. -/
theorem claim_C7_witness :
    routeQuery_mc "ping zz" true
        (Except.ok "broken \"agents\": [\"email\"] tail") =
      ⟨Except.ok ["email"], true, none⟩ ∧
    routeQuery_mc "ping zz" true (Except.ok "no json here") =
      ⟨Except.ok ["calendar_list"], true, none⟩ :=
  ⟨claim_C7_salvage_then_default.1 "broken \"agents\": [\"email\"] tail"
      "[\"email\"]" [JVal.jstr "email"] (by rfl) (by rfl) (by rfl) (by rfl),
   claim_C7_salvage_then_default.2 "no json here" (by rfl) (by rfl)⟩

/-- C7 counterexample: agent_manager.py's `safe_json_parse` (cited by the
claim) does not implement the "any bracketed array" salvage: on
`pick ["email"] please` it falls back to the default instead of salvaging
`["email"]`, unlike main_code.py's version. -/
theorem claim_C7_counterexample :
    jsonParse "pick [\"email\"] please" = none ∧
    safeJsonParse_mc "pick [\"email\"] please" (some agentsDefault) =
      JVal.jobj [("agents", JVal.jarr [JVal.jstr "email"])] ∧
    safeJsonParse_am "pick [\"email\"] please" (some agentsDefault) = agentsDefault :=
  ⟨rfl, rfl, rfl⟩

/-- C9 (amended): main_code.py's list flow requests exactly 10 events only
when the query neither matches the `<n> events` pattern nor expresses
vague plurality ("upcoming"/"next few"); and for any requested count n,
the emitted header is "Upcoming n Events" regardless of how many items
the calendar service actually returned. -/
theorem claim_C9_count_default_and_header :
    (∀ (q : String) (g : Bool) (llm : Except String String),
      numEventsSearch (pyLower q.data) = none →
      pyInLower "next few" q = false →
      pyInLower "upcoming" q = false →
      requestedCount_mc q g llm = Except.ok 10) ∧
    (∀ (q : String) (g : Bool) (llm : Except String String)
      (svc : Nat → Nat → Except String (List CalEvent)) (n : Nat)
      (evs : List CalEvent) (ls : List String),
      requestedCount_mc q g llm = Except.ok n →
      svc n (horizonDays_mc q) = Except.ok evs →
      renderEvents evs = some ls →
      ∃ restLines, listEvents_mc q g llm svc true =
        String.intercalate "\n" (("\nUpcoming " ++ toString n ++ " Events:") :: restLines)) := by
  constructor
  · intro q g llm hnum hnf hup
    have hup' : containsSub "upcoming".data (pyLower q.data) = false := hup
    have h1 : pyInLower "my 2 upcoming events" q = false := by
      cases hcase : pyInLower "my 2 upcoming events" q with
      | false => rfl
      | true =>
        have hbad := containsSub_trans "upcoming".data "my 2 upcoming events".data
          (pyLower q.data) (by decide) hcase
        rw [hup'] at hbad
        cases hbad
    have h2 : pyInLower "list my 2 upcoming events" q = false := by
      cases hcase : pyInLower "list my 2 upcoming events" q with
      | false => rfl
      | true =>
        have hbad := containsSub_trans "upcoming".data "list my 2 upcoming events".data
          (pyLower q.data) (by decide) hcase
        rw [hup'] at hbad
        cases hbad
    simp [requestedCount_mc, hnum, h1, h2, hnf, hup]
  · intro q g llm svc n evs ls hc hsvc hr
    unfold listEvents_mc
    rw [hc]
    simp only []
    rw [hsvc]
    simp only []
    rw [hr]
    exact ⟨String.mk (List.replicate 30 '-') ::
      (ls ++ if evs.isEmpty then ["\nNo upcoming events found."] else []), rfl⟩

/-- Witness for C9: a query with no explicit count and no plurality cue
defaults to 10, and the header shows the requested count. -/
theorem claim_C9_witness :
    requestedCount_mc "list events" true (Except.ok "7") = Except.ok 10 ∧
    (∃ restLines, listEvents_mc "list events" true (Except.ok "7")
        (fun _ _ => Except.ok []) true =
      String.intercalate "\n" ("\nUpcoming 10 Events:" :: restLines)) :=
  ⟨claim_C9_count_default_and_header.1 "list events" true (Except.ok "7")
      (by rfl) (by rfl) (by rfl),
   claim_C9_count_default_and_header.2 "list events" true (Except.ok "7")
      (fun _ _ => Except.ok []) 10 [] []
      (claim_C9_count_default_and_header.1 "list events" true (Except.ok "7")
        (by rfl) (by rfl) (by rfl)) (by rfl) (by rfl)⟩

/-- C9 counterexample: "show my upcoming events" has no explicit count,
yet with the LLM answering "3" the flow requests 3 events (not 10) and the
header reads "Upcoming 3 Events". -/
theorem claim_C9_counterexample :
    numEventsSearch (pyLower "show my upcoming events".data) = none ∧
    requestedCount_mc "show my upcoming events" true (Except.ok "3") = Except.ok 3 ∧
    listEvents_mc "show my upcoming events" true (Except.ok "3")
        (fun _ _ => Except.ok []) true =
      "\nUpcoming 3 Events:\n------------------------------\n\nNo upcoming events found." :=
  ⟨rfl, rfl, rfl⟩

/-- `re.findall` finds no address exactly when `containsEmail` is false. -/
theorem emailSearch_eq_none_of_not_contains (q : String)
    (h : containsEmail q = false) : emailSearch q = none := by
  unfold containsEmail at h
  unfold emailSearch
  cases hcase : emailSearchAux q.data with
  | none => rfl
  | some m => rw [hcase] at h; cases h

/-- C10 (amended): for every query without a syntactically valid email
address, each `send_email` variant returns a cross-prefixed error line and
makes no Gmail profile or send call (the send step is unreachable);
main_code.py and agent_manager.py ask for a valid/complete address, while
agent_managerr.py only reports that none was found. -/
theorem claim_C10_no_address_no_send :
    (∀ (q subject body : String) (profile sendRes : Except String String),
      containsEmail q = false →
      sendEmail_mc q true none subject body profile sendRes =
        ⟨"❌ No email address found in the query! Please include a valid email address.",
          false, false⟩) ∧
    (∀ (q subject body : String) (profile sendRes : Except String String),
      containsEmail q = false →
      (sendEmail_am q none subject body profile sendRes).profileCalled = false ∧
      (sendEmail_am q none subject body profile sendRes).sendCalled = false ∧
      ((∃ name, (sendEmail_am q none subject body profile sendRes).response =
          "❌ Could not find a valid email address for '" ++ name ++
            "'. Please include a complete email address.") ∨
        (sendEmail_am q none subject body profile sendRes).response =
          "❌ No email address found in the query! Please include a valid email address.")) ∧
    (∀ (q : String) (llm profile sendRes : Except String String),
      containsEmail q = false →
      sendEmail_rr q none llm profile sendRes =
        Except.ok ⟨"❌ No email address found in the query!", false, false⟩) := by
  refine ⟨?_, ?_, ?_⟩
  · intro q subject body profile sendRes h
    unfold sendEmail_mc
    rw [emailSearch_eq_none_of_not_contains q h]
    rfl
  · intro q subject body profile sendRes h
    have hn := emailSearch_eq_none_of_not_contains q h
    refine ⟨?_, ?_, ?_⟩
    · unfold sendEmail_am
      rw [hn]
      cases ht : toNameSearch q.data <;> rfl
    · unfold sendEmail_am
      rw [hn]
      cases ht : toNameSearch q.data <;> rfl
    · unfold sendEmail_am
      rw [hn]
      cases ht : toNameSearch q.data with
      | some run => exact Or.inl ⟨String.mk (pyStrip run), rfl⟩
      | none => exact Or.inr rfl
  · intro q llm profile sendRes h
    unfold sendEmail_rr
    rw [emailSearch_eq_none_of_not_contains q h]

/-- Witness for C10: a recipient-free query through the main_code.py and
agent_managerr.py variants. -/
theorem claim_C10_witness :
    sendEmail_mc "send the report to the team" true none "s" "b"
        (Except.ok "me@x.com") (Except.ok "id") =
      ⟨"❌ No email address found in the query! Please include a valid email address.",
        false, false⟩ ∧
    sendEmail_rr "hello there" none (Except.ok "x") (Except.ok "y") (Except.ok "z") =
      Except.ok ⟨"❌ No email address found in the query!", false, false⟩ :=
  ⟨claim_C10_no_address_no_send.1 "send the report to the team" "s" "b"
      (Except.ok "me@x.com") (Except.ok "id") (by rfl),
   claim_C10_no_address_no_send.2.2 "hello there" (Except.ok "x") (Except.ok "y")
      (Except.ok "z") (by rfl)⟩

/-- C10 counterexample: agent_managerr.py's variant (cited by the claim)
returns a cross-prefixed line that does not ask for a valid address — the
claim's "asking for a valid address" fails for it. -/
theorem claim_C10_counterexample :
    sendEmail_rr "send the update to the whole team" none (Except.ok "x")
        (Except.ok "y") (Except.ok "z") =
      Except.ok ⟨"❌ No email address found in the query!", false, false⟩ ∧
    pyIn "valid email address" "❌ No email address found in the query!" = false ∧
    pyIn "Please" "❌ No email address found in the query!" = false :=
  ⟨rfl, rfl, rfl⟩

/-- C6 (amended): agent_manager.py's and main_code.py's entry points
always return a string — for every query, LLM outcome and arbitrary
(even raising) action handlers, the pipeline either completes with a final
response (empty ones replaced by an apology) or its exception is caught
and rendered as "Error processing your request: <exception>".
agent_managerr.py has no such handling (see the counterexample). -/
theorem claim_C6_entry_always_returns_string :
    (∀ (q : String) (g : Bool) (llm : Except String String) (h : Handlers),
      (∃ s, pipeline_mc q g llm h = Except.ok s ∧
        agentManager_mc q g llm h =
          (if s ≠ "" then s else "Sorry, I couldn't generate a response for your request.")) ∨
      (∃ e, pipeline_mc q g llm h = Except.error e ∧
        agentManager_mc q g llm h = "Error processing your request: " ++ e)) ∧
    (∀ (q : String) (g : Bool) (llm : Except String String) (h : Handlers),
      (∃ s, pipeline_am q g llm h = Except.ok s ∧
        agentManager_am q g llm h =
          (if s ≠ "" then s else "Sorry, I couldn't generate a response for your request.")) ∨
      (∃ e, pipeline_am q g llm h = Except.error e ∧
        agentManager_am q g llm h = "Error processing your request: " ++ e)) := by
  constructor
  · intro q g llm h
    cases hp : pipeline_mc q g llm h with
    | ok s =>
      exact Or.inl ⟨s, rfl, by unfold agentManager_mc; rw [hp]⟩
    | error e =>
      exact Or.inr ⟨e, rfl, by unfold agentManager_mc; rw [hp]⟩
  · intro q g llm h
    cases hp : pipeline_am q g llm h with
    | ok s =>
      exact Or.inl ⟨s, rfl, by unfold agentManager_am; rw [hp]⟩
    | error e =>
      exact Or.inr ⟨e, rfl, by unfold agentManager_am; rw [hp]⟩

/-- C6 counterexample: agent_managerr.py's entry point (cited by the
claim) has no exception handling — a raising routing LLM call propagates
to the caller instead of any string being returned. -/
theorem claim_C6_counterexample :
    agentManager_rr "hello" (Except.error "connection refused")
        ⟨fun _ => Except.ok "", fun _ => Except.ok "", fun _ => Except.ok ""⟩ =
      Except.error "connection refused" ∧
    ∀ s : String,
      agentManager_rr "hello" (Except.error "connection refused")
          ⟨fun _ => Except.ok "", fun _ => Except.ok "", fun _ => Except.ok ""⟩ ≠
        Except.ok s :=
  ⟨rfl, fun _ hcontra => Except.noConfusion hcontra⟩
